import Mathlib

/-!
# Questionable Pong: the animation loop of `src/main.c`

The program is one `main` function: a set-up sequence (lines 165-197) followed
by the animation loop (lines 206-360).  This development embeds the state the
loop works on and the body of the loop, block by block, in source order.

Conventions of the embedding.

* C `int` values (rectangle fields, key flags) are `Int`.  The only integer
  arithmetic of the program is `WINDOW_WIDTH - w`, `WINDOW_HEIGHT - h`,
  `WINDOW_WIDTH - 100 - w` and a division by two, none of which can overflow
  for the non-negative texture sizes the rectangles hold.  C integer division
  truncates toward zero: `Int.tdiv`.
* C `float` values (the four fields of `movement_t`) are rationals with exact
  arithmetic.  Every value the game computes from its initial state is a whole
  number (the speed is 240, one step is 240 / 60 = 4), for which `float`
  arithmetic is exact.  The cast `(int) f` truncates toward zero: `toInt`.
* `SDL_PollEvent` is embedded as the list of events it hands out during one
  drain of the queue; `SDL_HasIntersection` is a library routine and is a
  parameter `hit` of the frame.  Rendering and `SDL_Delay` do not touch the
  state and are left out.
-/

namespace Pong

/-! ## Constants (lines 11-21) and the SDL constants the loop switches on -/

/-- Width of the drawn window (line 11). -/
def WINDOW_WIDTH : Int := 640

/-- Height of the drawn window (line 12). -/
def WINDOW_HEIGHT : Int := 480

/-- Speed constant (line 14). -/
def SPEED : Int := 240

/-- Flag value: key has been pressed (line 20). -/
def PRESSED : Int := 1

/-- Flag value: key has not been pressed (line 21). -/
def NOT_PRESSED : Int := 0

/-- Event type `SDL_QUIT` of the SDL2 headers (0x100). -/
def SDL_QUIT : Nat := 256

/-- Event type `SDL_KEYDOWN` of the SDL2 headers (0x300). -/
def SDL_KEYDOWN : Nat := 768

/-- Event type `SDL_KEYUP` of the SDL2 headers (0x301). -/
def SDL_KEYUP : Nat := 769

/-- Scancode of the W key in the SDL2 headers. -/
def SDL_SCANCODE_W : Nat := 26

/-- Scancode of the S key in the SDL2 headers. -/
def SDL_SCANCODE_S : Nat := 22

/-- Scancode of the Up arrow key in the SDL2 headers. -/
def SDL_SCANCODE_UP : Nat := 82

/-- Scancode of the Down arrow key in the SDL2 headers. -/
def SDL_SCANCODE_DOWN : Nat := 81

/-! ## Data model (lines 24-53) -/

/-- Movement details of an object (lines 25-30). -/
structure movement_t where
  xVel : ℚ
  yVel : ℚ
  xPos : ℚ
  yPos : ℚ
  deriving DecidableEq

/-- The rectangle `SDL_Rect`: four `int` fields. -/
structure SDL_Rect where
  x : Int
  y : Int
  w : Int
  h : Int
  deriving DecidableEq

/-- Paddle object (lines 33-37); the texture pointer plays no part in the
simulation and is left out. -/
structure paddle_t where
  drawn_object : SDL_Rect
  movement : movement_t
  deriving DecidableEq

/-- Ball object (lines 40-44), without the texture pointer. -/
structure ball_t where
  drawn_object : SDL_Rect
  movement : movement_t
  deriving DecidableEq

/-- Possible key options for the game (lines 47-53). -/
structure keys_t where
  left_up : Int
  left_down : Int
  right_up : Int
  right_down : Int
  close_request : Int
  deriving DecidableEq

/-- What the loop reads of an `SDL_Event`: its `type` and, for keyboard
events, `key.keysym.scancode`. -/
structure SDL_Event where
  type : Nat
  scancode : Nat
  deriving DecidableEq

/-- The local variables of `main` that the animation loop reads and writes. -/
structure State where
  leftpaddle : paddle_t
  rightpaddle : paddle_t
  ball : ball_t
  actions : keys_t
  deriving DecidableEq

/-- The cast `(int) f` of a float holding the value `q`: truncation toward
zero. -/
def toInt (q : ℚ) : Int := Int.tdiv q.num q.den

/-! ## Set-up (lines 165-197) -/

/-- The state at the first loop test.  The arguments are the three rectangles
as they stand at line 161: `w` and `h` hold the scaled texture sizes, `x` and
`y` have not been assigned yet and hold whatever the arguments say. -/
def initState (lrect rrect brect : SDL_Rect) : State :=
  { leftpaddle :=
      { drawn_object := lrect
        movement :=
          { xPos := 100
            yPos := ((Int.tdiv (WINDOW_HEIGHT - lrect.h) 2 : Int) : ℚ)
            xVel := 0
            yVel := 0 } }
    rightpaddle :=
      { drawn_object := rrect
        movement :=
          { xPos := ((WINDOW_WIDTH - 100 - rrect.w : Int) : ℚ)
            yPos := ((Int.tdiv (WINDOW_HEIGHT - rrect.h) 2 : Int) : ℚ)
            xVel := 0
            yVel := 0 } }
    ball :=
      { drawn_object := brect
        movement :=
          { xPos := ((Int.tdiv (WINDOW_WIDTH - brect.w) 2 : Int) : ℚ)
            yPos := ((Int.tdiv (WINDOW_HEIGHT - brect.h) 2 : Int) : ℚ)
            xVel := (SPEED : ℚ)
            yVel := -(SPEED : ℚ) } }
    actions :=
      { left_down := 0
        left_up := 0
        right_down := 0
        right_up := 0
        close_request := 0 } }

/-! ## The loop body (lines 207-345) -/

/-- One pass of the `switch (event.type)` of lines 210-264. -/
def processEvent (actions : keys_t) (event : SDL_Event) : keys_t :=
  if event.type = SDL_QUIT then
    { actions with close_request := PRESSED }
  else if event.type = SDL_KEYDOWN then
    if event.scancode = SDL_SCANCODE_W then { actions with left_up := PRESSED }
    else if event.scancode = SDL_SCANCODE_S then { actions with left_down := PRESSED }
    else if event.scancode = SDL_SCANCODE_UP then { actions with right_up := PRESSED }
    else if event.scancode = SDL_SCANCODE_DOWN then { actions with right_down := PRESSED }
    else actions
  else if event.type = SDL_KEYUP then
    if event.scancode = SDL_SCANCODE_W then { actions with left_up := NOT_PRESSED }
    else if event.scancode = SDL_SCANCODE_S then { actions with left_down := NOT_PRESSED }
    else if event.scancode = SDL_SCANCODE_UP then { actions with right_up := NOT_PRESSED }
    else if event.scancode = SDL_SCANCODE_DOWN then { actions with right_down := NOT_PRESSED }
    else actions
  else actions

/-- The drain loop `while (SDL_PollEvent(&event))` of lines 209-265 over the
events the queue holds. -/
def pollEvents (actions : keys_t) (events : List SDL_Event) : keys_t :=
  events.foldl processEvent actions

/-- Lines 269-285 for one paddle: the velocity is reset to zero, then the two
keystroke tests run one after the other. -/
def keystrokeVel (up down : Int) : ℚ :=
  let yVel : ℚ := 0
  let yVel : ℚ := if up = PRESSED ∧ down = NOT_PRESSED then -(SPEED : ℚ) else yVel
  let yVel : ℚ := if down = PRESSED ∧ up = NOT_PRESSED then (SPEED : ℚ) else yVel
  yVel

/-- Determine velocity changes (lines 267-285). -/
def determineVelocity (s : State) : State :=
  { s with
    leftpaddle :=
      { s.leftpaddle with
        movement :=
          { s.leftpaddle.movement with
            yVel := keystrokeVel s.actions.left_up s.actions.left_down } }
    rightpaddle :=
      { s.rightpaddle with
        movement :=
          { s.rightpaddle.movement with
            yVel := keystrokeVel s.actions.right_up s.actions.right_down } } }

/-- Update object positions (lines 289-293). -/
def updatePositions (s : State) : State :=
  { s with
    leftpaddle :=
      { s.leftpaddle with
        movement :=
          { s.leftpaddle.movement with
            yPos := s.leftpaddle.movement.yPos + s.leftpaddle.movement.yVel / 60 } }
    rightpaddle :=
      { s.rightpaddle with
        movement :=
          { s.rightpaddle.movement with
            yPos := s.rightpaddle.movement.yPos + s.rightpaddle.movement.yVel / 60 } }
    ball :=
      { s.ball with
        movement :=
          { s.ball.movement with
            xPos := s.ball.movement.xPos + s.ball.movement.xVel / 60
            yPos := s.ball.movement.yPos + s.ball.movement.yVel / 60 } } }

/-- Check for collisions with ball and paddle (lines 297-303): two tests, one
after the other, the second reading the velocity the first may have written. -/
def ballPaddleCollision (hit : SDL_Rect → SDL_Rect → Bool) (s : State) : State :=
  let xVel : ℚ := s.ball.movement.xVel
  let xVel : ℚ :=
    if hit s.ball.drawn_object s.leftpaddle.drawn_object = true ∧ xVel < 0 then -xVel else xVel
  let xVel : ℚ :=
    if hit s.ball.drawn_object s.rightpaddle.drawn_object = true ∧ xVel > 0 then -xVel else xVel
  { s with ball := { s.ball with movement := { s.ball.movement with xVel := xVel } } }

/-- Lines 306-317 for one paddle: the floor test, then the roof test. -/
def clampPaddle (h : Int) (yPos : ℚ) : ℚ :=
  let yPos : ℚ := if yPos ≥ ((WINDOW_HEIGHT - h : Int) : ℚ) then ((WINDOW_HEIGHT - h : Int) : ℚ) else yPos
  let yPos : ℚ := if yPos ≤ 0 then 0 else yPos
  yPos

/-- Check paddle collision with walls (lines 305-317).  The tests of the two
paddles are interleaved in the source and touch disjoint variables. -/
def paddleWalls (s : State) : State :=
  { s with
    leftpaddle :=
      { s.leftpaddle with
        movement :=
          { s.leftpaddle.movement with
            yPos := clampPaddle s.leftpaddle.drawn_object.h s.leftpaddle.movement.yPos } }
    rightpaddle :=
      { s.rightpaddle with
        movement :=
          { s.rightpaddle.movement with
            yPos := clampPaddle s.rightpaddle.drawn_object.h s.rightpaddle.movement.yPos } } }

/-- Ball collision with roof and floor (lines 319-327): the roof test, then
the floor test on what the roof test left. -/
def ballWalls (s : State) : State :=
  let yPos : ℚ := s.ball.movement.yPos
  let yVel : ℚ := s.ball.movement.yVel
  let roof : Bool := decide (yPos ≤ 0)
  let yPos : ℚ := if roof then 0 else yPos
  let yVel : ℚ := if roof then -yVel else yVel
  let floor : Bool := decide (yPos ≥ ((WINDOW_HEIGHT - s.ball.drawn_object.h : Int) : ℚ))
  let yPos : ℚ := if floor then ((WINDOW_HEIGHT - s.ball.drawn_object.h : Int) : ℚ) else yPos
  let yVel : ℚ := if floor then -yVel else yVel
  { s with ball := { s.ball with movement := { s.ball.movement with yPos := yPos, yVel := yVel } } }

/-- Ball gets past a paddle (lines 329-333). -/
def ballPastPaddle (s : State) : State :=
  if s.ball.movement.xPos ≤ 0 ∨
      s.ball.movement.xPos ≥ ((WINDOW_WIDTH - s.ball.drawn_object.w : Int) : ℚ) then
    { s with
      ball :=
        { s.ball with
          movement :=
            { s.ball.movement with
              xPos := ((Int.tdiv (WINDOW_WIDTH - s.ball.drawn_object.w) 2 : Int) : ℚ)
              yPos := ((Int.tdiv (WINDOW_HEIGHT - s.ball.drawn_object.h) 2 : Int) : ℚ) } } }
  else s

/-- Update positions (lines 337-345): the draw rectangles take the truncated
simulation positions. -/
def updateDrawn (s : State) : State :=
  { s with
    leftpaddle :=
      { s.leftpaddle with
        drawn_object :=
          { s.leftpaddle.drawn_object with
            x := toInt s.leftpaddle.movement.xPos
            y := toInt s.leftpaddle.movement.yPos } }
    rightpaddle :=
      { s.rightpaddle with
        drawn_object :=
          { s.rightpaddle.drawn_object with
            x := toInt s.rightpaddle.movement.xPos
            y := toInt s.rightpaddle.movement.yPos } }
    ball :=
      { s.ball with
        drawn_object :=
          { s.ball.drawn_object with
            x := toInt s.ball.movement.xPos
            y := toInt s.ball.movement.yPos } } }

/-- The state after the event drain of a frame (lines 208-265). -/
def afterEvents (events : List SDL_Event) (s : State) : State :=
  { s with actions := pollEvents s.actions events }

/-- The state after the velocity derivation of a frame (lines 208-285). -/
def afterVelocity (events : List SDL_Event) (s : State) : State :=
  determineVelocity (afterEvents events s)

/-- The state after the position integration of a frame (lines 208-293). -/
def afterIntegration (events : List SDL_Event) (s : State) : State :=
  updatePositions (afterVelocity events s)

/-- One iteration of the animation loop (lines 207-345): `events` is what the
event queue hands out during the drain, `hit` is `SDL_HasIntersection`. -/
def frame (hit : SDL_Rect → SDL_Rect → Bool) (events : List SDL_Event) (s : State) : State :=
  updateDrawn (ballPastPaddle (ballWalls (paddleWalls
    (ballPaddleCollision hit (afterIntegration events s)))))

/-- The animation loop (line 206): one frame per entry of `queue` for as long
as the loop test `actions.close_request == NOT_PRESSED` holds. -/
def run (hit : SDL_Rect → SDL_Rect → Bool) : List (List SDL_Event) → State → State
  | [], s => s
  | events :: queue, s =>
    if s.actions.close_request = NOT_PRESSED then run hit queue (frame hit events s) else s

/-- Modelled from the spec: `SDL_HasIntersection` belongs to the SDL library
and is not part of the source; the spec describes it as the axis-aligned
bounding-box overlap test between two rectangles.  Rectangles without area
overlap nothing. -/
def SDL_HasIntersection (a b : SDL_Rect) : Bool :=
  decide (0 < a.w ∧ 0 < a.h ∧ 0 < b.w ∧ 0 < b.h ∧
    max a.x b.x < min (a.x + a.w) (b.x + b.w) ∧
    max a.y b.y < min (a.y + a.h) (b.y + b.h))

/-! ## Concrete states used to evaluate the loop body -/

/-- A state in which the ball's rectangle overlaps both paddles' rectangles
while the ball moves left: the paddles are 300 wide, so that their rectangles
span x = 100..400 and x = 240..540, and the ball's rectangle spans
x = 314..334.  It is the state after the first frame of a game with these
sprite sizes. -/
def overlapBothState : State :=
  { leftpaddle := { drawn_object := ⟨100, 190, 300, 100⟩, movement := ⟨0, 0, 100, 190⟩ }
    rightpaddle := { drawn_object := ⟨240, 190, 300, 100⟩, movement := ⟨0, 0, 240, 190⟩ }
    ball := { drawn_object := ⟨314, 226, 20, 20⟩, movement := ⟨-240, -240, 314, 226⟩ }
    actions := ⟨0, 0, 0, 0, 0⟩ }

/-- A state in which the ball's rectangle (x = 95..115) overlaps the left
paddle's rectangle (x = 100..120) only, the ball moving left. -/
def contactLeftState : State :=
  { leftpaddle := { drawn_object := ⟨100, 190, 20, 100⟩, movement := ⟨0, 0, 100, 190⟩ }
    rightpaddle := { drawn_object := ⟨520, 190, 20, 100⟩, movement := ⟨0, 0, 520, 190⟩ }
    ball := { drawn_object := ⟨95, 200, 20, 20⟩, movement := ⟨-240, -240, 95, 200⟩ }
    actions := ⟨0, 0, 0, 0, 0⟩ }

/-- The ball's rectangle (x = 95..115) overlaps the left paddle's rectangle
only, the ball moving right, away from that paddle. -/
def leavingLeftState : State :=
  { contactLeftState with
    ball := { drawn_object := ⟨95, 200, 20, 20⟩, movement := ⟨240, -240, 95, 200⟩ } }

/-- The ball's rectangle (x = 510..530) overlaps the right paddle's rectangle
(x = 520..540) only, the ball moving right. -/
def contactRightState : State :=
  { contactLeftState with
    ball := { drawn_object := ⟨510, 200, 20, 20⟩, movement := ⟨240, -240, 510, 200⟩ } }

/-- The ball's rectangle (x = 510..530) overlaps the right paddle's rectangle
only, the ball moving left, away from that paddle. -/
def leavingRightState : State :=
  { contactLeftState with
    ball := { drawn_object := ⟨510, 200, 20, 20⟩, movement := ⟨-240, -240, 510, 200⟩ } }

/-- The ball is two units from the left edge of the window and moves left. -/
def exitLeftState : State :=
  { contactLeftState with
    ball := { drawn_object := ⟨2, 200, 20, 20⟩, movement := ⟨-240, -240, 2, 200⟩ } }

/-- The ball is two units below the roof and moves up. -/
def contactRoofState : State :=
  { contactLeftState with
    ball := { drawn_object := ⟨300, 2, 20, 20⟩, movement := ⟨240, -240, 300, 2⟩ } }

/-- The initial state of a game whose ball is as tall as the window. -/
def tallBallState : State :=
  initState ⟨0, 0, 20, 100⟩ ⟨0, 0, 20, 100⟩ ⟨0, 0, 10, 480⟩

/-- Both keys of the left paddle are held (W and S); the paddle still carries
the upward velocity of an earlier frame. -/
def bothPressedState : State :=
  { leftpaddle := { drawn_object := ⟨100, 190, 20, 100⟩, movement := ⟨0, -240, 100, 190⟩ }
    rightpaddle := { drawn_object := ⟨520, 190, 20, 100⟩, movement := ⟨0, 0, 520, 190⟩ }
    ball := { drawn_object := ⟨300, 200, 20, 20⟩, movement := ⟨240, -240, 300, 200⟩ }
    actions := ⟨1, 1, 0, 0, 0⟩ }

/-- The left paddle as in `contactLeftState`; the right paddle, its keys and
the ball are all different: the right paddle is taller, lower down and moving,
its Down key is held, and the ball is elsewhere, moving the other way. -/
def rightBusyState : State :=
  { leftpaddle := { drawn_object := ⟨100, 190, 20, 100⟩, movement := ⟨0, 0, 100, 190⟩ }
    rightpaddle := { drawn_object := ⟨500, 40, 40, 120⟩, movement := ⟨0, 240, 500, 40⟩ }
    ball := { drawn_object := ⟨400, 300, 30, 30⟩, movement := ⟨-240, 240, 400, 300⟩ }
    actions := ⟨0, 0, 0, 1, 0⟩ }

/-- The ball is four units from the left edge of the window and moves left:
the integration puts it at x = 0 exactly. -/
def touchLeftEdgeState : State :=
  { contactLeftState with
    ball := { drawn_object := ⟨4, 200, 20, 20⟩, movement := ⟨-240, -240, 4, 200⟩ } }

/-! ## Predicates on states used to state the properties -/

/-- The value is a whole number. -/
def isWhole (q : ℚ) : Prop := q.den = 1

instance instDecidableIsWhole (q : ℚ) : Decidable (isWhole q) :=
  inferInstanceAs (Decidable (q.den = 1))

/-- The six simulation positions of a state (`xPos` and `yPos` of the two
paddles and of the ball) are whole numbers. -/
def wholePositions (s : State) : Prop :=
  isWhole s.leftpaddle.movement.xPos ∧ isWhole s.leftpaddle.movement.yPos ∧
  isWhole s.rightpaddle.movement.xPos ∧ isWhole s.rightpaddle.movement.yPos ∧
  isWhole s.ball.movement.xPos ∧ isWhole s.ball.movement.yPos

/-- The `x` and `y` of each of the three draw rectangles equal the `xPos` and
`yPos` of the object the rectangle belongs to. -/
def drawnExact (s : State) : Prop :=
  (s.leftpaddle.drawn_object.x : ℚ) = s.leftpaddle.movement.xPos ∧
  (s.leftpaddle.drawn_object.y : ℚ) = s.leftpaddle.movement.yPos ∧
  (s.rightpaddle.drawn_object.x : ℚ) = s.rightpaddle.movement.xPos ∧
  (s.rightpaddle.drawn_object.y : ℚ) = s.rightpaddle.movement.yPos ∧
  (s.ball.drawn_object.x : ℚ) = s.ball.movement.xPos ∧
  (s.ball.drawn_object.y : ℚ) = s.ball.movement.yPos

/-! ## Auxiliary facts about the blocks of the loop body -/

/-- Halving a non-negative `int` by C division stays between 0 and the
dividend. -/
theorem tdiv_two_bounds (a : Int) (h : 0 ≤ a) : 0 ≤ Int.tdiv a 2 ∧ Int.tdiv a 2 ≤ a := by
  rw [Int.tdiv_eq_ediv h (by decide)]
  omega

/-- The two wall tests leave a paddle inside the window when it fits. -/
theorem clampPaddle_bounds (h : Int) (y : ℚ) (hh : h ≤ WINDOW_HEIGHT) :
    0 ≤ clampPaddle h y ∧ clampPaddle h y ≤ ((WINDOW_HEIGHT - h : Int) : ℚ) := by
  have h0 : (0 : ℚ) ≤ ((WINDOW_HEIGHT - h : Int) : ℚ) := by
    have : (0 : Int) ≤ WINDOW_HEIGHT - h := by omega
    exact_mod_cast this
  unfold clampPaddle
  simp only
  split_ifs with h1 h2 h2
  · exact ⟨le_refl _, h0⟩
  · exact ⟨h0, le_refl _⟩
  · exact ⟨le_refl _, h0⟩
  · exact ⟨le_of_lt (not_le.mp h2), le_of_lt (not_le.mp h1)⟩

theorem ballPastPaddle_leftpaddle (s : State) : (ballPastPaddle s).leftpaddle = s.leftpaddle := by
  unfold ballPastPaddle; split_ifs <;> rfl

theorem ballPastPaddle_rightpaddle (s : State) : (ballPastPaddle s).rightpaddle = s.rightpaddle := by
  unfold ballPastPaddle; split_ifs <;> rfl

theorem ballPastPaddle_actions (s : State) : (ballPastPaddle s).actions = s.actions := by
  unfold ballPastPaddle; split_ifs <;> rfl

theorem ballPastPaddle_drawn (s : State) :
    (ballPastPaddle s).ball.drawn_object = s.ball.drawn_object := by
  unfold ballPastPaddle; split_ifs <;> rfl

theorem ballPastPaddle_xVel (s : State) :
    (ballPastPaddle s).ball.movement.xVel = s.ball.movement.xVel := by
  unfold ballPastPaddle; split_ifs <;> rfl

theorem ballPastPaddle_yVel (s : State) :
    (ballPastPaddle s).ball.movement.yVel = s.ball.movement.yVel := by
  unfold ballPastPaddle; split_ifs <;> rfl

theorem frame_left_yPos (hit : SDL_Rect → SDL_Rect → Bool) (ev : List SDL_Event)
    (s : State) :
    (frame hit ev s).leftpaddle.movement.yPos =
      clampPaddle s.leftpaddle.drawn_object.h
        (s.leftpaddle.movement.yPos +
          keystrokeVel (pollEvents s.actions ev).left_up (pollEvents s.actions ev).left_down / 60) := by
  simp [frame, updateDrawn, ballPastPaddle_leftpaddle, ballWalls, paddleWalls, ballPaddleCollision,
    afterIntegration, updatePositions, afterVelocity, determineVelocity, afterEvents]

theorem frame_right_yPos (hit : SDL_Rect → SDL_Rect → Bool) (ev : List SDL_Event)
    (s : State) :
    (frame hit ev s).rightpaddle.movement.yPos =
      clampPaddle s.rightpaddle.drawn_object.h
        (s.rightpaddle.movement.yPos +
          keystrokeVel (pollEvents s.actions ev).right_up (pollEvents s.actions ev).right_down / 60) := by
  simp [frame, updateDrawn, ballPastPaddle_rightpaddle, ballWalls, paddleWalls, ballPaddleCollision,
    afterIntegration, updatePositions, afterVelocity, determineVelocity, afterEvents]

theorem frame_left_h (hit : SDL_Rect → SDL_Rect → Bool) (ev : List SDL_Event)
    (s : State) :
    (frame hit ev s).leftpaddle.drawn_object.h = s.leftpaddle.drawn_object.h := by
  simp [frame, updateDrawn, ballPastPaddle_leftpaddle, ballWalls, paddleWalls, ballPaddleCollision,
    afterIntegration, updatePositions, afterVelocity, determineVelocity, afterEvents]

theorem frame_right_h (hit : SDL_Rect → SDL_Rect → Bool) (ev : List SDL_Event)
    (s : State) :
    (frame hit ev s).rightpaddle.drawn_object.h = s.rightpaddle.drawn_object.h := by
  simp [frame, updateDrawn, ballPastPaddle_rightpaddle, ballWalls, paddleWalls, ballPaddleCollision,
    afterIntegration, updatePositions, afterVelocity, determineVelocity, afterEvents]

theorem frame_ball_h (hit : SDL_Rect → SDL_Rect → Bool) (ev : List SDL_Event)
    (s : State) :
    (frame hit ev s).ball.drawn_object.h = s.ball.drawn_object.h := by
  simp [frame, updateDrawn, ballPastPaddle_drawn, ballWalls, paddleWalls, ballPaddleCollision,
    afterIntegration, updatePositions, afterVelocity, determineVelocity, afterEvents]

theorem frame_ball_w (hit : SDL_Rect → SDL_Rect → Bool) (ev : List SDL_Event)
    (s : State) :
    (frame hit ev s).ball.drawn_object.w = s.ball.drawn_object.w := by
  simp [frame, updateDrawn, ballPastPaddle_drawn, ballWalls, paddleWalls, ballPaddleCollision,
    afterIntegration, updatePositions, afterVelocity, determineVelocity, afterEvents]

/-- A property kept by every frame is kept by the loop. -/
theorem run_invariant (hit : SDL_Rect → SDL_Rect → Bool) (P : State → Prop)
    (hstep : ∀ ev s, P s → P (frame hit ev s)) :
    ∀ (queue : List (List SDL_Event)) (s : State), P s → P (run hit queue s) := by
  intro queue
  induction queue with
  | nil => intro s hs; exact hs
  | cons ev rest ih =>
    intro s hs
    unfold run
    split_ifs
    · exact ih _ (hstep ev s hs)
    · exact hs



theorem ballWalls_yPos_bounds (s : State) (hh : s.ball.drawn_object.h ≤ WINDOW_HEIGHT) :
    0 ≤ (ballWalls s).ball.movement.yPos ∧
      (ballWalls s).ball.movement.yPos ≤ ((WINDOW_HEIGHT - s.ball.drawn_object.h : Int) : ℚ) := by
  have h0 : (0 : ℚ) ≤ ((WINDOW_HEIGHT - s.ball.drawn_object.h : Int) : ℚ) := by
    have : (0 : Int) ≤ WINDOW_HEIGHT - s.ball.drawn_object.h := by omega
    exact_mod_cast this
  unfold ballWalls
  dsimp only
  generalize ((WINDOW_HEIGHT - s.ball.drawn_object.h : Int) : ℚ) = B at h0 ⊢
  by_cases h1 : s.ball.movement.yPos ≤ 0
  · by_cases h2 : (0 : ℚ) ≥ B
    · simp [h1, h2, h0]
    · simp [h1, h2, h0]
  · by_cases h2 : s.ball.movement.yPos ≥ B
    · simp [h1, h2, h0]
    · simp [h1, h2]
      exact ⟨le_of_lt (not_le.mp h1), le_of_lt (not_le.mp h2)⟩

theorem ballPastPaddle_yPos_bounds (s : State) (hh : s.ball.drawn_object.h ≤ WINDOW_HEIGHT)
    (hy : 0 ≤ s.ball.movement.yPos ∧
      s.ball.movement.yPos ≤ ((WINDOW_HEIGHT - s.ball.drawn_object.h : Int) : ℚ)) :
    0 ≤ (ballPastPaddle s).ball.movement.yPos ∧
      (ballPastPaddle s).ball.movement.yPos ≤ ((WINDOW_HEIGHT - s.ball.drawn_object.h : Int) : ℚ) := by
  have hb := tdiv_two_bounds (WINDOW_HEIGHT - s.ball.drawn_object.h) (by omega)
  unfold ballPastPaddle
  split_ifs
  · dsimp only
    exact ⟨by exact_mod_cast hb.1, by exact_mod_cast hb.2⟩
  · exact hy

theorem frame_ball_yPos_bounds (hit : SDL_Rect → SDL_Rect → Bool) (ev : List SDL_Event)
    (s : State) (hh : s.ball.drawn_object.h ≤ WINDOW_HEIGHT) :
    0 ≤ (frame hit ev s).ball.movement.yPos ∧
      (frame hit ev s).ball.movement.yPos ≤ ((WINDOW_HEIGHT - s.ball.drawn_object.h : Int) : ℚ) := by
  have key := ballPastPaddle_yPos_bounds
    (ballWalls (paddleWalls (ballPaddleCollision hit (afterIntegration ev s)))) hh
    (ballWalls_yPos_bounds (paddleWalls (ballPaddleCollision hit (afterIntegration ev s))) hh)
  exact key

/-- C division by two of a non-negative `int` is the floor division. -/
theorem tdiv_two_eq (a : Int) (h : 0 ≤ a) : Int.tdiv a 2 = a / 2 :=
  Int.tdiv_eq_ediv h (by decide)

/-- Within a frame only the paddle tests write the ball's `xVel`. -/
theorem frame_ball_xVel (hit : SDL_Rect → SDL_Rect → Bool) (ev : List SDL_Event) (s : State) :
    (frame hit ev s).ball.movement.xVel = (ballPaddleCollision hit s).ball.movement.xVel := by
  simp [frame, updateDrawn, ballPastPaddle_xVel, ballWalls, paddleWalls, ballPaddleCollision,
    afterIntegration, updatePositions, afterVelocity, determineVelocity, afterEvents]

theorem ballPaddleCollision_away_right (hit : SDL_Rect → SDL_Rect → Bool) (s : State)
    (hv : 0 ≤ s.ball.movement.xVel)
    (hr : hit s.ball.drawn_object s.rightpaddle.drawn_object = false) :
    (ballPaddleCollision hit s).ball.movement.xVel = s.ball.movement.xVel := by
  have hn : ¬ s.ball.movement.xVel < 0 := not_lt.mpr hv
  simp [ballPaddleCollision, hr, hn]

theorem ballPaddleCollision_away_left (hit : SDL_Rect → SDL_Rect → Bool) (s : State)
    (hv : s.ball.movement.xVel ≤ 0)
    (hl : hit s.ball.drawn_object s.leftpaddle.drawn_object = false) :
    (ballPaddleCollision hit s).ball.movement.xVel = s.ball.movement.xVel := by
  have hn : ¬ 0 < s.ball.movement.xVel := not_lt.mpr hv
  simp [ballPaddleCollision, hl, hn]

theorem afterIntegration_ball_drawn (ev : List SDL_Event) (s : State) :
    (afterIntegration ev s).ball.drawn_object = s.ball.drawn_object := rfl

theorem afterIntegration_ball_xPos (ev : List SDL_Event) (s : State) :
    (afterIntegration ev s).ball.movement.xPos
      = s.ball.movement.xPos + s.ball.movement.xVel / 60 := rfl

theorem afterIntegration_ball_yPos (ev : List SDL_Event) (s : State) :
    (afterIntegration ev s).ball.movement.yPos
      = s.ball.movement.yPos + s.ball.movement.yVel / 60 := rfl

theorem afterIntegration_ball_yVel (ev : List SDL_Event) (s : State) :
    (afterIntegration ev s).ball.movement.yVel = s.ball.movement.yVel := rfl

/-- Within a frame only the roof and floor tests write the ball's `yVel`. -/
theorem frame_ball_yVel (hit : SDL_Rect → SDL_Rect → Bool) (ev : List SDL_Event) (s : State) :
    (frame hit ev s).ball.movement.yVel
      = (ballWalls (afterIntegration ev s)).ball.movement.yVel := by
  simp [frame, updateDrawn, ballPastPaddle_yVel, ballWalls, paddleWalls, ballPaddleCollision]

theorem ballPastPaddle_ball_pos_congr (s t : State)
    (hx : s.ball.movement.xPos = t.ball.movement.xPos)
    (hy : s.ball.movement.yPos = t.ball.movement.yPos)
    (hd : s.ball.drawn_object = t.ball.drawn_object) :
    (ballPastPaddle s).ball.movement.xPos = (ballPastPaddle t).ball.movement.xPos ∧
    (ballPastPaddle s).ball.movement.yPos = (ballPastPaddle t).ball.movement.yPos := by
  unfold ballPastPaddle
  rw [hx, hd]
  split_ifs
  · exact ⟨rfl, rfl⟩
  · exact ⟨hx, hy⟩

/-- The ball's position at the end of a frame comes from the integration,
the roof and floor tests and the exit test alone. -/
theorem frame_ball_pos (hit : SDL_Rect → SDL_Rect → Bool) (ev : List SDL_Event) (s : State) :
    (frame hit ev s).ball.movement.xPos
      = (ballPastPaddle (ballWalls (afterIntegration ev s))).ball.movement.xPos ∧
    (frame hit ev s).ball.movement.yPos
      = (ballPastPaddle (ballWalls (afterIntegration ev s))).ball.movement.yPos :=
  ballPastPaddle_ball_pos_congr
    (ballWalls (paddleWalls (ballPaddleCollision hit (afterIntegration ev s))))
    (ballWalls (afterIntegration ev s)) rfl rfl rfl

theorem ballPaddleCollision_abs (hit : SDL_Rect → SDL_Rect → Bool) (s : State) :
    |(ballPaddleCollision hit s).ball.movement.xVel| = |s.ball.movement.xVel| := by
  simp only [ballPaddleCollision]
  split_ifs <;> simp

theorem ballWalls_yVel_abs (s : State) :
    |(ballWalls s).ball.movement.yVel| = |s.ball.movement.yVel| := by
  simp only [ballWalls]
  split_ifs <;> simp

theorem ballWalls_xPos (s : State) :
    (ballWalls s).ball.movement.xPos = s.ball.movement.xPos := rfl

theorem ballWalls_drawn (s : State) :
    (ballWalls s).ball.drawn_object = s.ball.drawn_object := rfl

theorem ballWalls_yPos_inside (s : State)
    (h0 : 0 < s.ball.movement.yPos)
    (h1 : s.ball.movement.yPos < ((WINDOW_HEIGHT - s.ball.drawn_object.h : Int) : ℚ)) :
    (ballWalls s).ball.movement.yPos = s.ball.movement.yPos := by
  unfold ballWalls
  dsimp only
  generalize ((WINDOW_HEIGHT - s.ball.drawn_object.h : Int) : ℚ) = B at h1 ⊢
  have n0 : ¬ s.ball.movement.yPos ≤ 0 := not_le.mpr h0
  have n1 : ¬ s.ball.movement.yPos ≥ B := not_le.mpr h1
  simp [n0, n1]

theorem ballPaddleCollision_xVel_cases (hit : SDL_Rect → SDL_Rect → Bool) (s : State) :
    (ballPaddleCollision hit s).ball.movement.xVel = s.ball.movement.xVel ∨
    (ballPaddleCollision hit s).ball.movement.xVel = -s.ball.movement.xVel := by
  simp only [ballPaddleCollision]
  split_ifs <;> simp

theorem ballWalls_yVel_cases (s : State) :
    (ballWalls s).ball.movement.yVel = s.ball.movement.yVel ∨
    (ballWalls s).ball.movement.yVel = -s.ball.movement.yVel := by
  simp only [ballWalls]
  split_ifs <;> simp

/-- One frame leaves each velocity component of the ball as it was or
negates it. -/
theorem frame_ball_vel_cases (hit : SDL_Rect → SDL_Rect → Bool) (ev : List SDL_Event) (s : State) :
    ((frame hit ev s).ball.movement.xVel = s.ball.movement.xVel ∨
      (frame hit ev s).ball.movement.xVel = -s.ball.movement.xVel) ∧
    ((frame hit ev s).ball.movement.yVel = s.ball.movement.yVel ∨
      (frame hit ev s).ball.movement.yVel = -s.ball.movement.yVel) := by
  rw [frame_ball_xVel, frame_ball_yVel]
  exact ⟨ballPaddleCollision_xVel_cases hit s, ballWalls_yVel_cases (afterIntegration ev s)⟩

/-- Within a frame only the event drain writes the key flags. -/
theorem frame_actions (hit : SDL_Rect → SDL_Rect → Bool) (ev : List SDL_Event) (s : State) :
    (frame hit ev s).actions = pollEvents s.actions ev := by
  simp [frame, updateDrawn, ballPastPaddle_actions, ballWalls, paddleWalls, ballPaddleCollision,
    afterIntegration, updatePositions, afterVelocity, determineVelocity, afterEvents]

theorem frame_left_yVel (hit : SDL_Rect → SDL_Rect → Bool) (ev : List SDL_Event) (s : State) :
    (frame hit ev s).leftpaddle.movement.yVel =
      keystrokeVel (pollEvents s.actions ev).left_up (pollEvents s.actions ev).left_down := by
  simp [frame, updateDrawn, ballPastPaddle_leftpaddle, ballWalls, paddleWalls, ballPaddleCollision,
    afterIntegration, updatePositions, afterVelocity, determineVelocity, afterEvents]

theorem frame_right_yVel (hit : SDL_Rect → SDL_Rect → Bool) (ev : List SDL_Event) (s : State) :
    (frame hit ev s).rightpaddle.movement.yVel =
      keystrokeVel (pollEvents s.actions ev).right_up (pollEvents s.actions ev).right_down := by
  simp [frame, updateDrawn, ballPastPaddle_rightpaddle, ballWalls, paddleWalls, ballPaddleCollision,
    afterIntegration, updatePositions, afterVelocity, determineVelocity, afterEvents]

/-- An event changes the left paddle's two flags by their own values alone. -/
theorem processEvent_left_congr (a b : keys_t) (e : SDL_Event)
    (hu : a.left_up = b.left_up) (hd : a.left_down = b.left_down) :
    (processEvent a e).left_up = (processEvent b e).left_up ∧
    (processEvent a e).left_down = (processEvent b e).left_down := by
  unfold processEvent
  split_ifs <;> exact ⟨by first | rfl | exact hu, by first | rfl | exact hd⟩

theorem processEvent_right_congr (a b : keys_t) (e : SDL_Event)
    (hu : a.right_up = b.right_up) (hd : a.right_down = b.right_down) :
    (processEvent a e).right_up = (processEvent b e).right_up ∧
    (processEvent a e).right_down = (processEvent b e).right_down := by
  unfold processEvent
  split_ifs <;> exact ⟨by first | rfl | exact hu, by first | rfl | exact hd⟩

theorem pollEvents_left_congr (ev : List SDL_Event) :
    ∀ a b : keys_t, a.left_up = b.left_up → a.left_down = b.left_down →
      (pollEvents a ev).left_up = (pollEvents b ev).left_up ∧
      (pollEvents a ev).left_down = (pollEvents b ev).left_down := by
  induction ev with
  | nil => intro a b hu hd; exact ⟨hu, hd⟩
  | cons e rest ih =>
    intro a b hu hd
    have h := processEvent_left_congr a b e hu hd
    exact ih (processEvent a e) (processEvent b e) h.1 h.2

theorem pollEvents_right_congr (ev : List SDL_Event) :
    ∀ a b : keys_t, a.right_up = b.right_up → a.right_down = b.right_down →
      (pollEvents a ev).right_up = (pollEvents b ev).right_up ∧
      (pollEvents a ev).right_down = (pollEvents b ev).right_down := by
  induction ev with
  | nil => intro a b hu hd; exact ⟨hu, hd⟩
  | cons e rest ih =>
    intro a b hu hd
    have h := processEvent_right_congr a b e hu hd
    exact ih (processEvent a e) (processEvent b e) h.1 h.2

theorem processEvent_close_latched (a : keys_t) (e : SDL_Event)
    (h : a.close_request = PRESSED) : (processEvent a e).close_request = PRESSED := by
  unfold processEvent
  split_ifs <;> first | rfl | exact h

theorem pollEvents_close_latched (ev : List SDL_Event) :
    ∀ a : keys_t, a.close_request = PRESSED → (pollEvents a ev).close_request = PRESSED := by
  induction ev with
  | nil => intro a h; exact h
  | cons e rest ih => intro a h; exact ih (processEvent a e) (processEvent_close_latched a e h)

theorem pollEvents_append (a : keys_t) (xs ys : List SDL_Event) :
    pollEvents a (xs ++ ys) = pollEvents (pollEvents a xs) ys := by
  simp [pollEvents, List.foldl_append]

theorem pollEvents_quit (a : keys_t) (before after : List SDL_Event) (sc : Nat) :
    (pollEvents a (before ++ ⟨SDL_QUIT, sc⟩ :: after)).close_request = PRESSED := by
  rw [pollEvents_append]
  exact pollEvents_close_latched after _ (by simp [processEvent])

/-- The loop runs no frame once the close flag is set. -/
theorem run_closed (hit : SDL_Rect → SDL_Rect → Bool) (queue : List (List SDL_Event))
    (s : State) (h : s.actions.close_request ≠ NOT_PRESSED) : run hit queue s = s := by
  cases queue with
  | nil => rfl
  | cons ev rest => unfold run; rw [if_neg h]

theorem keystrokeVel_up (up down : Int) (hu : up = PRESSED) (hd : down = NOT_PRESSED) :
    keystrokeVel up down = -240 := by
  subst hu hd
  norm_num [keystrokeVel, SPEED, PRESSED, NOT_PRESSED]

theorem keystrokeVel_down (up down : Int) (hd : down = PRESSED) (hu : up = NOT_PRESSED) :
    keystrokeVel up down = 240 := by
  subst hu hd
  norm_num [keystrokeVel, SPEED, PRESSED, NOT_PRESSED]

theorem keystrokeVel_zero (up down : Int) (h1 : ¬ (up = PRESSED ∧ down = NOT_PRESSED))
    (h2 : ¬ (down = PRESSED ∧ up = NOT_PRESSED)) : keystrokeVel up down = 0 := by
  simp [keystrokeVel, h1, h2]


theorem tdiv_two_strict (a : Int) (h : 2 ≤ a) : 0 < Int.tdiv a 2 ∧ Int.tdiv a 2 < a := by
  rw [Int.tdiv_eq_ediv (by omega) (by decide)]
  omega

theorem ballPastPaddle_xPos_inside (s : State)
    (hw : s.ball.drawn_object.w ≤ 638) :
    0 < (ballPastPaddle s).ball.movement.xPos ∧
    (ballPastPaddle s).ball.movement.xPos
      < ((WINDOW_WIDTH - s.ball.drawn_object.w : Int) : ℚ) := by
  have hb := tdiv_two_strict (WINDOW_WIDTH - s.ball.drawn_object.w)
    (by simp only [WINDOW_WIDTH]; omega)
  unfold ballPastPaddle
  split_ifs with hc
  · dsimp only
    exact ⟨by exact_mod_cast hb.1, by exact_mod_cast hb.2⟩
  · rw [not_or] at hc
    exact ⟨not_le.mp hc.1, not_le.mp hc.2⟩

theorem frame_ball_xPos_inside (hit : SDL_Rect → SDL_Rect → Bool) (ev : List SDL_Event)
    (s : State) (hw : s.ball.drawn_object.w ≤ 638) :
    0 < (frame hit ev s).ball.movement.xPos ∧
    (frame hit ev s).ball.movement.xPos
      < ((WINDOW_WIDTH - s.ball.drawn_object.w : Int) : ℚ) := by
  rw [(frame_ball_pos hit ev s).1]
  exact ballPastPaddle_xPos_inside (ballWalls (afterIntegration ev s)) hw

/-- The exit test fires on touching a side as well as on passing it. -/
theorem frame_ball_recentred (hit : SDL_Rect → SDL_Rect → Bool) (ev : List SDL_Event)
    (s : State)
    (hc : (afterIntegration ev s).ball.movement.xPos ≤ 0 ∨
      (afterIntegration ev s).ball.movement.xPos
        ≥ ((WINDOW_WIDTH - s.ball.drawn_object.w : Int) : ℚ)) :
    (frame hit ev s).ball.movement.xPos
      = ((Int.tdiv (WINDOW_WIDTH - s.ball.drawn_object.w) 2 : Int) : ℚ) ∧
    (frame hit ev s).ball.movement.yPos
      = ((Int.tdiv (WINDOW_HEIGHT - s.ball.drawn_object.h) 2 : Int) : ℚ) := by
  have hc2 : (ballWalls (afterIntegration ev s)).ball.movement.xPos ≤ 0 ∨
      (ballWalls (afterIntegration ev s)).ball.movement.xPos
        ≥ ((WINDOW_WIDTH - (ballWalls (afterIntegration ev s)).ball.drawn_object.w : Int) : ℚ) := hc
  have hp := frame_ball_pos hit ev s
  rw [hp.1, hp.2]
  unfold ballPastPaddle
  rw [if_pos hc2]
  exact ⟨rfl, rfl⟩

theorem isWhole_intCast (n : Int) : isWhole (n : ℚ) := by
  simp [isWhole]

/-- A rational of denominator one is the cast of an integer. -/
theorem isWhole_iff (q : ℚ) : isWhole q ↔ ∃ n : Int, q = (n : ℚ) := by
  constructor
  · intro h
    exact ⟨q.num, ((Rat.den_eq_one_iff q).mp h).symm⟩
  · rintro ⟨n, rfl⟩
    exact isWhole_intCast n

theorem isWhole_add (p q : ℚ) (hp : isWhole p) (hq : isWhole q) : isWhole (p + q) := by
  obtain ⟨a, rfl⟩ := (isWhole_iff p).mp hp
  obtain ⟨b, rfl⟩ := (isWhole_iff q).mp hq
  exact (isWhole_iff _).mpr ⟨a + b, by push_cast; rfl⟩

/-- The cast to `int` loses nothing on a whole number. -/
theorem toInt_of_isWhole (q : ℚ) (h : isWhole q) : ((toInt q : Int) : ℚ) = q := by
  obtain ⟨n, rfl⟩ := (isWhole_iff q).mp h
  simp [toInt]

theorem keystrokeVel_step_whole (up down : Int) : isWhole (keystrokeVel up down / 60) := by
  by_cases h1 : up = PRESSED ∧ down = NOT_PRESSED
  · rw [keystrokeVel_up up down h1.1 h1.2]
    exact (isWhole_iff _).mpr ⟨-4, by norm_num⟩
  · by_cases h2 : down = PRESSED ∧ up = NOT_PRESSED
    · rw [keystrokeVel_down up down h2.1 h2.2]
      exact (isWhole_iff _).mpr ⟨4, by norm_num⟩
    · rw [keystrokeVel_zero up down h1 h2]
      exact (isWhole_iff _).mpr ⟨0, by norm_num⟩

theorem clampPaddle_whole (h : Int) (y : ℚ) (hy : isWhole y) : isWhole (clampPaddle h y) := by
  unfold clampPaddle
  dsimp only
  split_ifs
  · exact (isWhole_iff _).mpr ⟨0, by norm_num⟩
  · exact isWhole_intCast _
  · exact (isWhole_iff _).mpr ⟨0, by norm_num⟩
  · exact hy

theorem ballWalls_yPos_whole (s : State) (hy : isWhole s.ball.movement.yPos) :
    isWhole (ballWalls s).ball.movement.yPos := by
  unfold ballWalls
  dsimp only
  split_ifs
  · exact isWhole_intCast _
  · exact (isWhole_iff _).mpr ⟨0, by norm_num⟩
  · exact isWhole_intCast _
  · exact hy

theorem ballPastPaddle_pos_whole (s : State) (hx : isWhole s.ball.movement.xPos)
    (hy : isWhole s.ball.movement.yPos) :
    isWhole (ballPastPaddle s).ball.movement.xPos ∧
    isWhole (ballPastPaddle s).ball.movement.yPos := by
  unfold ballPastPaddle
  split_ifs
  · exact ⟨isWhole_intCast _, isWhole_intCast _⟩
  · exact ⟨hx, hy⟩

theorem vel_step_whole (v : ℚ) (hv : v = 240 ∨ v = -240) : isWhole (v / 60) := by
  rcases hv with h | h
  · rw [h]; exact (isWhole_iff _).mpr ⟨4, by norm_num⟩
  · rw [h]; exact (isWhole_iff _).mpr ⟨-4, by norm_num⟩

theorem frame_left_xPos (hit : SDL_Rect → SDL_Rect → Bool) (ev : List SDL_Event) (s : State) :
    (frame hit ev s).leftpaddle.movement.xPos = s.leftpaddle.movement.xPos ∧
    (frame hit ev s).leftpaddle.movement.xVel = s.leftpaddle.movement.xVel := by
  simp [frame, updateDrawn, ballPastPaddle_leftpaddle, ballWalls, paddleWalls, ballPaddleCollision,
    afterIntegration, updatePositions, afterVelocity, determineVelocity, afterEvents]

theorem frame_right_xPos (hit : SDL_Rect → SDL_Rect → Bool) (ev : List SDL_Event) (s : State) :
    (frame hit ev s).rightpaddle.movement.xPos = s.rightpaddle.movement.xPos ∧
    (frame hit ev s).rightpaddle.movement.xVel = s.rightpaddle.movement.xVel := by
  simp [frame, updateDrawn, ballPastPaddle_rightpaddle, ballWalls, paddleWalls, ballPaddleCollision,
    afterIntegration, updatePositions, afterVelocity, determineVelocity, afterEvents]

/-- A frame keeps the positions whole when the ball's speed is 240. -/
theorem frame_whole (hit : SDL_Rect → SDL_Rect → Bool) (ev : List SDL_Event) (s : State)
    (hw : wholePositions s)
    (hx : s.ball.movement.xVel = 240 ∨ s.ball.movement.xVel = -240)
    (hy : s.ball.movement.yVel = 240 ∨ s.ball.movement.yVel = -240) :
    wholePositions (frame hit ev s) := by
  obtain ⟨h1, h2, h3, h4, h5, h6⟩ := hw
  have hbx : isWhole (afterIntegration ev s).ball.movement.xPos :=
    isWhole_add _ _ h5 (vel_step_whole _ hx)
  have hby : isWhole (afterIntegration ev s).ball.movement.yPos :=
    isWhole_add _ _ h6 (vel_step_whole _ hy)
  have hb := ballPastPaddle_pos_whole (ballWalls (afterIntegration ev s)) hbx
    (ballWalls_yPos_whole _ hby)
  have hp := frame_ball_pos hit ev s
  refine ⟨?_, ?_, ?_, ?_, ?_, ?_⟩
  · rw [(frame_left_xPos hit ev s).1]; exact h1
  · rw [frame_left_yPos]
    exact clampPaddle_whole _ _ (isWhole_add _ _ h2 (keystrokeVel_step_whole _ _))
  · rw [(frame_right_xPos hit ev s).1]; exact h3
  · rw [frame_right_yPos]
    exact clampPaddle_whole _ _ (isWhole_add _ _ h4 (keystrokeVel_step_whole _ _))
  · rw [hp.1]; exact hb.1
  · rw [hp.2]; exact hb.2

/-- A frame ends by writing the truncated positions to the rectangles. -/
theorem frame_drawn (hit : SDL_Rect → SDL_Rect → Bool) (ev : List SDL_Event) (s : State) :
    (frame hit ev s).leftpaddle.drawn_object.x = toInt (frame hit ev s).leftpaddle.movement.xPos ∧
    (frame hit ev s).leftpaddle.drawn_object.y = toInt (frame hit ev s).leftpaddle.movement.yPos ∧
    (frame hit ev s).rightpaddle.drawn_object.x
      = toInt (frame hit ev s).rightpaddle.movement.xPos ∧
    (frame hit ev s).rightpaddle.drawn_object.y
      = toInt (frame hit ev s).rightpaddle.movement.yPos ∧
    (frame hit ev s).ball.drawn_object.x = toInt (frame hit ev s).ball.movement.xPos ∧
    (frame hit ev s).ball.drawn_object.y = toInt (frame hit ev s).ball.movement.yPos :=
  ⟨rfl, rfl, rfl, rfl, rfl, rfl⟩

theorem initState_whole (lrect rrect brect : SDL_Rect) :
    wholePositions (initState lrect rrect brect) :=
  ⟨(isWhole_iff _).mpr ⟨100, by norm_num [initState]⟩, isWhole_intCast _, isWhole_intCast _,
    isWhole_intCast _, isWhole_intCast _, isWhole_intCast _⟩

theorem frame_left_w (hit : SDL_Rect → SDL_Rect → Bool) (ev : List SDL_Event) (s : State) :
    (frame hit ev s).leftpaddle.drawn_object.w = s.leftpaddle.drawn_object.w := by
  simp [frame, updateDrawn, ballPastPaddle_leftpaddle, ballWalls, paddleWalls, ballPaddleCollision,
    afterIntegration, updatePositions, afterVelocity, determineVelocity, afterEvents]

theorem frame_right_w (hit : SDL_Rect → SDL_Rect → Bool) (ev : List SDL_Event) (s : State) :
    (frame hit ev s).rightpaddle.drawn_object.w = s.rightpaddle.drawn_object.w := by
  simp [frame, updateDrawn, ballPastPaddle_rightpaddle, ballWalls, paddleWalls, ballPaddleCollision,
    afterIntegration, updatePositions, afterVelocity, determineVelocity, afterEvents]

/-! ## The properties -/

/-- C1 (paddle bounds invariant): for a paddle whose height `h` satisfies
`0 ≤ h ≤ WINDOW_HEIGHT`, in the state the loop reaches from the initial state
after any sequence of frames (any events drained in each, hence any key-flag
values, and any intersection test), the paddle's `yPos` lies in
`[0, WINDOW_HEIGHT - h]`.  Stated for the left and for the right paddle. -/
theorem paddle_bounds_invariant (hit : SDL_Rect → SDL_Rect → Bool)
    (lrect rrect brect : SDL_Rect) (queue : List (List SDL_Event)) :
    (0 ≤ lrect.h → lrect.h ≤ WINDOW_HEIGHT →
      0 ≤ (run hit queue (initState lrect rrect brect)).leftpaddle.movement.yPos ∧
      (run hit queue (initState lrect rrect brect)).leftpaddle.movement.yPos
        ≤ ((WINDOW_HEIGHT - lrect.h : Int) : ℚ)) ∧
    (0 ≤ rrect.h → rrect.h ≤ WINDOW_HEIGHT →
      0 ≤ (run hit queue (initState lrect rrect brect)).rightpaddle.movement.yPos ∧
      (run hit queue (initState lrect rrect brect)).rightpaddle.movement.yPos
        ≤ ((WINDOW_HEIGHT - rrect.h : Int) : ℚ)) := by
  constructor
  · intro _ hle
    have inv := run_invariant hit
      (fun s => s.leftpaddle.drawn_object.h = lrect.h ∧
        0 ≤ s.leftpaddle.movement.yPos ∧
        s.leftpaddle.movement.yPos ≤ ((WINDOW_HEIGHT - lrect.h : Int) : ℚ))
      (by
        intro ev s hs
        have hb := clampPaddle_bounds s.leftpaddle.drawn_object.h
          (s.leftpaddle.movement.yPos +
            keystrokeVel (pollEvents s.actions ev).left_up (pollEvents s.actions ev).left_down / 60)
          (by rw [hs.1]; exact hle)
        rw [hs.1] at hb
        refine ⟨by rw [frame_left_h, hs.1], ?_, ?_⟩
        · rw [frame_left_yPos, hs.1]; exact hb.1
        · rw [frame_left_yPos, hs.1]; exact hb.2)
      queue (initState lrect rrect brect)
      (by
        have hb := tdiv_two_bounds (WINDOW_HEIGHT - lrect.h) (by omega)
        refine ⟨rfl, ?_, ?_⟩
        · show (0 : ℚ) ≤ ((Int.tdiv (WINDOW_HEIGHT - lrect.h) 2 : Int) : ℚ)
          exact_mod_cast hb.1
        · show ((Int.tdiv (WINDOW_HEIGHT - lrect.h) 2 : Int) : ℚ) ≤ _
          exact_mod_cast hb.2)
    exact inv.2
  · intro _ hle
    have inv := run_invariant hit
      (fun s => s.rightpaddle.drawn_object.h = rrect.h ∧
        0 ≤ s.rightpaddle.movement.yPos ∧
        s.rightpaddle.movement.yPos ≤ ((WINDOW_HEIGHT - rrect.h : Int) : ℚ))
      (by
        intro ev s hs
        have hb := clampPaddle_bounds s.rightpaddle.drawn_object.h
          (s.rightpaddle.movement.yPos +
            keystrokeVel (pollEvents s.actions ev).right_up (pollEvents s.actions ev).right_down / 60)
          (by rw [hs.1]; exact hle)
        rw [hs.1] at hb
        refine ⟨by rw [frame_right_h, hs.1], ?_, ?_⟩
        · rw [frame_right_yPos, hs.1]; exact hb.1
        · rw [frame_right_yPos, hs.1]; exact hb.2)
      queue (initState lrect rrect brect)
      (by
        have hb := tdiv_two_bounds (WINDOW_HEIGHT - rrect.h) (by omega)
        refine ⟨rfl, ?_, ?_⟩
        · show (0 : ℚ) ≤ ((Int.tdiv (WINDOW_HEIGHT - rrect.h) 2 : Int) : ℚ)
          exact_mod_cast hb.1
        · show ((Int.tdiv (WINDOW_HEIGHT - rrect.h) 2 : Int) : ℚ) ≤ _
          exact_mod_cast hb.2)
    exact inv.2

/-- Witness of C1: paddles of height 100 and 120, one frame in which W is
pressed. -/
theorem paddle_bounds_invariant_witness :
    ((0 : Int) ≤ 100 ∧ (100 : Int) ≤ WINDOW_HEIGHT ∧
      0 ≤ (run SDL_HasIntersection [[⟨SDL_KEYDOWN, SDL_SCANCODE_W⟩]]
            (initState ⟨0, 0, 20, 100⟩ ⟨0, 0, 20, 120⟩ ⟨0, 0, 10, 10⟩)).leftpaddle.movement.yPos ∧
      (run SDL_HasIntersection [[⟨SDL_KEYDOWN, SDL_SCANCODE_W⟩]]
            (initState ⟨0, 0, 20, 100⟩ ⟨0, 0, 20, 120⟩ ⟨0, 0, 10, 10⟩)).leftpaddle.movement.yPos
        ≤ ((WINDOW_HEIGHT - 100 : Int) : ℚ)) ∧
    ((0 : Int) ≤ 120 ∧ (120 : Int) ≤ WINDOW_HEIGHT ∧
      0 ≤ (run SDL_HasIntersection [[⟨SDL_KEYDOWN, SDL_SCANCODE_W⟩]]
            (initState ⟨0, 0, 20, 100⟩ ⟨0, 0, 20, 120⟩ ⟨0, 0, 10, 10⟩)).rightpaddle.movement.yPos ∧
      (run SDL_HasIntersection [[⟨SDL_KEYDOWN, SDL_SCANCODE_W⟩]]
            (initState ⟨0, 0, 20, 100⟩ ⟨0, 0, 20, 120⟩ ⟨0, 0, 10, 10⟩)).rightpaddle.movement.yPos
        ≤ ((WINDOW_HEIGHT - 120 : Int) : ℚ)) :=
  ⟨⟨by decide, by decide,
      (paddle_bounds_invariant SDL_HasIntersection ⟨0, 0, 20, 100⟩ ⟨0, 0, 20, 120⟩ ⟨0, 0, 10, 10⟩
        [[⟨SDL_KEYDOWN, SDL_SCANCODE_W⟩]]).1 (by decide) (by decide)⟩,
    ⟨by decide, by decide,
      (paddle_bounds_invariant SDL_HasIntersection ⟨0, 0, 20, 100⟩ ⟨0, 0, 20, 120⟩ ⟨0, 0, 10, 10⟩
        [[⟨SDL_KEYDOWN, SDL_SCANCODE_W⟩]]).2 (by decide) (by decide)⟩⟩

/-- C2 (ball vertical bounds invariant): for a ball whose height `h` satisfies
`0 ≤ h ≤ WINDOW_HEIGHT`, in the state the loop reaches from the initial state
after any sequence of frames, the ball's `yPos` lies in
`[0, WINDOW_HEIGHT - h]`; frames in which the ball is recentred are included,
the recentring being part of the frame. -/
theorem ball_vertical_bounds_invariant (hit : SDL_Rect → SDL_Rect → Bool)
    (lrect rrect brect : SDL_Rect) (queue : List (List SDL_Event))
    (_h0 : 0 ≤ brect.h) (hle : brect.h ≤ WINDOW_HEIGHT) :
    0 ≤ (run hit queue (initState lrect rrect brect)).ball.movement.yPos ∧
    (run hit queue (initState lrect rrect brect)).ball.movement.yPos
      ≤ ((WINDOW_HEIGHT - brect.h : Int) : ℚ) := by
  have inv := run_invariant hit
    (fun s => s.ball.drawn_object.h = brect.h ∧
      0 ≤ s.ball.movement.yPos ∧
      s.ball.movement.yPos ≤ ((WINDOW_HEIGHT - brect.h : Int) : ℚ))
    (by
      intro ev s hs
      have hb := frame_ball_yPos_bounds hit ev s (by rw [hs.1]; exact hle)
      rw [hs.1] at hb
      exact ⟨by rw [frame_ball_h, hs.1], hb.1, hb.2⟩)
    queue (initState lrect rrect brect)
    (by
      have hb := tdiv_two_bounds (WINDOW_HEIGHT - brect.h) (by omega)
      refine ⟨rfl, ?_, ?_⟩
      · show (0 : ℚ) ≤ ((Int.tdiv (WINDOW_HEIGHT - brect.h) 2 : Int) : ℚ)
        exact_mod_cast hb.1
      · show ((Int.tdiv (WINDOW_HEIGHT - brect.h) 2 : Int) : ℚ) ≤ _
        exact_mod_cast hb.2)
  exact inv.2

/-- Witness of C2: a ball of height 10 and two frames without events. -/
theorem ball_vertical_bounds_invariant_witness :
    (0 : Int) ≤ 10 ∧ (10 : Int) ≤ WINDOW_HEIGHT ∧
    0 ≤ (run SDL_HasIntersection [[], []]
          (initState ⟨0, 0, 20, 100⟩ ⟨0, 0, 20, 100⟩ ⟨0, 0, 10, 10⟩)).ball.movement.yPos ∧
    (run SDL_HasIntersection [[], []]
          (initState ⟨0, 0, 20, 100⟩ ⟨0, 0, 20, 100⟩ ⟨0, 0, 10, 10⟩)).ball.movement.yPos
      ≤ ((WINDOW_HEIGHT - 10 : Int) : ℚ) :=
  ⟨by decide, by decide,
    ball_vertical_bounds_invariant SDL_HasIntersection ⟨0, 0, 20, 100⟩ ⟨0, 0, 20, 100⟩
      ⟨0, 0, 10, 10⟩ [[], []] (by decide) (by decide)⟩

/-- C3, as amended (paddle reflection when moving toward the paddle): in a
frame that starts with the ball's rectangle overlapping the left paddle's
rectangle and not the right paddle's, and with `xVel < 0`, the ball's `xVel`
at the end of the frame is the negation of its value at the start, hence
positive; in a frame that starts with the ball's rectangle overlapping the
right paddle's rectangle and with `xVel > 0`, the ball's `xVel` at the end is
the negation, hence negative.  The rectangles are those the intersection test
of the frame reads: the draw rectangles as the previous frame left them. -/
theorem paddle_reflection_toward (hit : SDL_Rect → SDL_Rect → Bool) (events : List SDL_Event)
    (s : State) :
    (hit s.ball.drawn_object s.leftpaddle.drawn_object = true →
      hit s.ball.drawn_object s.rightpaddle.drawn_object = false →
      s.ball.movement.xVel < 0 →
      (frame hit events s).ball.movement.xVel = -s.ball.movement.xVel ∧
        0 < (frame hit events s).ball.movement.xVel) ∧
    (hit s.ball.drawn_object s.rightpaddle.drawn_object = true →
      0 < s.ball.movement.xVel →
      (frame hit events s).ball.movement.xVel = -s.ball.movement.xVel ∧
        (frame hit events s).ball.movement.xVel < 0) := by
  constructor
  · intro hl hr hv
    rw [frame_ball_xVel]
    simp [ballPaddleCollision, hl, hr, hv]
  · intro hr hv
    rw [frame_ball_xVel]
    have hn : ¬ s.ball.movement.xVel < 0 := not_lt.mpr (le_of_lt hv)
    simp [ballPaddleCollision, hr, hv, hn]

/-- Witness of C3 as amended: the ball overlaps the left paddle only and moves
left at -240; the frame leaves it moving right. -/
theorem paddle_reflection_toward_witness :
    SDL_HasIntersection contactLeftState.ball.drawn_object
      contactLeftState.leftpaddle.drawn_object = true ∧
    SDL_HasIntersection contactLeftState.ball.drawn_object
      contactLeftState.rightpaddle.drawn_object = false ∧
    contactLeftState.ball.movement.xVel < 0 ∧
    (frame SDL_HasIntersection [] contactLeftState).ball.movement.xVel
      = -contactLeftState.ball.movement.xVel :=
  ⟨by decide, by decide, by norm_num [contactLeftState],
    ((paddle_reflection_toward SDL_HasIntersection [] contactLeftState).1
      (by decide) (by decide) (by norm_num [contactLeftState])).1⟩

/-- Counterexample to C3 as stated: in `overlapBothState`, the state after the
first frame of a game whose paddles are 300 wide (the unassigned `x` and `y`
of the three rectangles being 0 at the start), the ball's rectangle overlaps
the left paddle's rectangle and `xVel = -240 < 0`, yet the frame ends with
`xVel = -240`, not with its negation: the ball's rectangle overlaps the right
paddle's rectangle too, and the second test negates what the first wrote. -/
theorem paddle_reflection_counterexample :
    overlapBothState =
      frame SDL_HasIntersection []
        (initState ⟨0, 0, 300, 100⟩ ⟨0, 0, 300, 100⟩ ⟨0, 0, 20, 20⟩) ∧
    SDL_HasIntersection overlapBothState.ball.drawn_object
      overlapBothState.leftpaddle.drawn_object = true ∧
    overlapBothState.ball.movement.xVel < 0 ∧
    (frame SDL_HasIntersection [] overlapBothState).ball.movement.xVel
      ≠ -overlapBothState.ball.movement.xVel := by
  refine ⟨?_, by decide, by norm_num [overlapBothState], ?_⟩
  · simp [frame, updateDrawn, ballPastPaddle, ballWalls, paddleWalls, ballPaddleCollision,
      afterIntegration, updatePositions, afterVelocity, determineVelocity, afterEvents,
      overlapBothState, SDL_HasIntersection, initState, pollEvents, keystrokeVel, clampPaddle,
      WINDOW_HEIGHT, WINDOW_WIDTH, SPEED, PRESSED, NOT_PRESSED, tdiv_two_eq]
    norm_num [toInt]
  · rw [frame_ball_xVel]
    norm_num [ballPaddleCollision, overlapBothState, SDL_HasIntersection]

/-- C4, as amended (no reflection when moving away): a frame that starts with
`xVel > 0` and with the ball's rectangle not overlapping the right paddle's
rectangle leaves `xVel` unchanged, whether or not the ball's rectangle
overlaps the left paddle's; symmetrically for `xVel < 0` and the left paddle.
Consequently a ball that stays overlapping one paddle, and does not overlap
the other paddle, over consecutive frames is reflected by it in at most the
first of those frames: after a frame in which the ball overlapped one paddle
and not the other, a next frame in which it again does not overlap the other
paddle leaves `xVel` unchanged, whether or not it still overlaps the first.
Applied to each pair of consecutive frames, this gives that only the first
frame of such a contact can reflect. -/
theorem no_reflection_moving_away (hit : SDL_Rect → SDL_Rect → Bool)
    (events next : List SDL_Event) (s : State) :
    (0 < s.ball.movement.xVel →
      hit s.ball.drawn_object s.rightpaddle.drawn_object = false →
      (frame hit events s).ball.movement.xVel = s.ball.movement.xVel) ∧
    (s.ball.movement.xVel < 0 →
      hit s.ball.drawn_object s.leftpaddle.drawn_object = false →
      (frame hit events s).ball.movement.xVel = s.ball.movement.xVel) ∧
    (hit s.ball.drawn_object s.leftpaddle.drawn_object = true →
      hit s.ball.drawn_object s.rightpaddle.drawn_object = false →
      hit (frame hit events s).ball.drawn_object
        (frame hit events s).rightpaddle.drawn_object = false →
      (frame hit next (frame hit events s)).ball.movement.xVel
        = (frame hit events s).ball.movement.xVel) ∧
    (hit s.ball.drawn_object s.rightpaddle.drawn_object = true →
      hit s.ball.drawn_object s.leftpaddle.drawn_object = false →
      hit (frame hit events s).ball.drawn_object
        (frame hit events s).leftpaddle.drawn_object = false →
      (frame hit next (frame hit events s)).ball.movement.xVel
        = (frame hit events s).ball.movement.xVel) := by
  refine ⟨?_, ?_, ?_, ?_⟩
  · intro hv hr
    rw [frame_ball_xVel]
    exact ballPaddleCollision_away_right hit s (le_of_lt hv) hr
  · intro hv hl
    rw [frame_ball_xVel]
    exact ballPaddleCollision_away_left hit s (le_of_lt hv) hl
  · intro hl hr hr2
    have h1 : 0 ≤ (frame hit events s).ball.movement.xVel := by
      rw [frame_ball_xVel]
      by_cases hv : s.ball.movement.xVel < 0
      · simp [ballPaddleCollision, hl, hr, hv]
        exact le_of_lt hv
      · simp [ballPaddleCollision, hl, hr, hv]
        exact not_lt.mp hv
    rw [frame_ball_xVel hit next]
    exact ballPaddleCollision_away_right hit _ h1 hr2
  · intro hr hl hl2
    have h1 : (frame hit events s).ball.movement.xVel ≤ 0 := by
      rw [frame_ball_xVel]
      by_cases hv : 0 < s.ball.movement.xVel
      · simp [ballPaddleCollision, hl, hr, hv]
        exact le_of_lt hv
      · simp [ballPaddleCollision, hl, hr, hv]
        exact not_lt.mp hv
    rw [frame_ball_xVel hit next]
    exact ballPaddleCollision_away_left hit _ h1 hl2

/-- Witness of C4: the four cases at concrete states, the ball overlapping the
paddle it moves away from (first two) or toward (last two, two frames). -/
theorem no_reflection_moving_away_witness :
    (0 < leavingLeftState.ball.movement.xVel ∧
      SDL_HasIntersection leavingLeftState.ball.drawn_object
        leavingLeftState.leftpaddle.drawn_object = true ∧
      (frame SDL_HasIntersection [] leavingLeftState).ball.movement.xVel
        = leavingLeftState.ball.movement.xVel) ∧
    (leavingRightState.ball.movement.xVel < 0 ∧
      SDL_HasIntersection leavingRightState.ball.drawn_object
        leavingRightState.rightpaddle.drawn_object = true ∧
      (frame SDL_HasIntersection [] leavingRightState).ball.movement.xVel
        = leavingRightState.ball.movement.xVel) ∧
    (frame SDL_HasIntersection [] (frame SDL_HasIntersection [] contactLeftState)).ball.movement.xVel
      = (frame SDL_HasIntersection [] contactLeftState).ball.movement.xVel ∧
    (frame SDL_HasIntersection [] (frame SDL_HasIntersection [] contactRightState)).ball.movement.xVel
      = (frame SDL_HasIntersection [] contactRightState).ball.movement.xVel :=
  ⟨⟨by norm_num [leavingLeftState], by decide,
      (no_reflection_moving_away SDL_HasIntersection [] [] leavingLeftState).1
        (by norm_num [leavingLeftState]) (by decide)⟩,
    ⟨by norm_num [leavingRightState], by decide,
      (no_reflection_moving_away SDL_HasIntersection [] [] leavingRightState).2.1
        (by norm_num [leavingRightState]) (by decide)⟩,
    (no_reflection_moving_away SDL_HasIntersection [] [] contactLeftState).2.2.1
      (by decide) (by decide)
      (by
        simp [frame, updateDrawn, ballPastPaddle, ballWalls, paddleWalls, ballPaddleCollision,
          afterIntegration, updatePositions, afterVelocity, determineVelocity, afterEvents,
          contactLeftState, SDL_HasIntersection, pollEvents, keystrokeVel, clampPaddle,
          WINDOW_HEIGHT, WINDOW_WIDTH, SPEED, PRESSED, NOT_PRESSED, tdiv_two_eq]
        norm_num [toInt]),
    (no_reflection_moving_away SDL_HasIntersection [] [] contactRightState).2.2.2
      (by decide) (by decide)
      (by
        simp [frame, updateDrawn, ballPastPaddle, ballWalls, paddleWalls, ballPaddleCollision,
          afterIntegration, updatePositions, afterVelocity, determineVelocity, afterEvents,
          contactRightState, contactLeftState, SDL_HasIntersection, pollEvents, keystrokeVel,
          clampPaddle, WINDOW_HEIGHT, WINDOW_WIDTH, SPEED, PRESSED, NOT_PRESSED, tdiv_two_eq]
        norm_num [toInt])⟩

/-- Counterexample to the last sentence of C4 as stated: from
`overlapBothState`, the state after the first frame of a game whose paddles
are 300 wide (the unassigned `x` and `y` of the three rectangles being 0 at
the start), the ball's rectangle overlaps the left paddle's rectangle in two
consecutive frames and the left paddle reflects the ball in both: at the start
of each the test of line 298 holds, the ball's rectangle overlapping the left
paddle's and `xVel` being negative.  The ball overlaps the right paddle too,
whose test negates `xVel` back within the same frame. -/
theorem no_reflection_moving_away_counterexample :
    overlapBothState =
      frame SDL_HasIntersection []
        (initState ⟨0, 0, 300, 100⟩ ⟨0, 0, 300, 100⟩ ⟨0, 0, 20, 20⟩) ∧
    (SDL_HasIntersection overlapBothState.ball.drawn_object
        overlapBothState.leftpaddle.drawn_object = true ∧
      overlapBothState.ball.movement.xVel < 0) ∧
    (SDL_HasIntersection (frame SDL_HasIntersection [] overlapBothState).ball.drawn_object
        (frame SDL_HasIntersection [] overlapBothState).leftpaddle.drawn_object = true ∧
      (frame SDL_HasIntersection [] overlapBothState).ball.movement.xVel < 0) := by
  refine ⟨?_, ⟨by decide, by norm_num [overlapBothState]⟩, ?_, ?_⟩
  · simp [frame, updateDrawn, ballPastPaddle, ballWalls, paddleWalls, ballPaddleCollision,
      afterIntegration, updatePositions, afterVelocity, determineVelocity, afterEvents,
      overlapBothState, SDL_HasIntersection, initState, pollEvents, keystrokeVel, clampPaddle,
      WINDOW_HEIGHT, WINDOW_WIDTH, SPEED, PRESSED, NOT_PRESSED, tdiv_two_eq]
    norm_num [toInt]
  · simp [frame, updateDrawn, ballPastPaddle, ballWalls, paddleWalls, ballPaddleCollision,
      afterIntegration, updatePositions, afterVelocity, determineVelocity, afterEvents,
      overlapBothState, SDL_HasIntersection, pollEvents, keystrokeVel, clampPaddle,
      WINDOW_HEIGHT, WINDOW_WIDTH, SPEED, PRESSED, NOT_PRESSED, tdiv_two_eq]
    norm_num [toInt]
  · rw [frame_ball_xVel]
    norm_num [ballPaddleCollision, overlapBothState, SDL_HasIntersection]

/-- C5 (ball exit reset): if after the position integration of a frame the
ball's `xPos` is below 0 or above `WINDOW_WIDTH - w`, then at the end of the
frame the ball is at `((WINDOW_WIDTH - w) / 2, (WINDOW_HEIGHT - h) / 2)`
(integer division), which is where the set-up code puts it, and the absolute
values of `xVel` and `yVel` are those of the start of the frame. -/
theorem ball_exit_reset (hit : SDL_Rect → SDL_Rect → Bool) (events : List SDL_Event)
    (s : State) (lrect rrect : SDL_Rect)
    (hexit : (afterIntegration events s).ball.movement.xPos < 0 ∨
      (afterIntegration events s).ball.movement.xPos
        > ((WINDOW_WIDTH - s.ball.drawn_object.w : Int) : ℚ)) :
    (frame hit events s).ball.movement.xPos
      = ((Int.tdiv (WINDOW_WIDTH - s.ball.drawn_object.w) 2 : Int) : ℚ) ∧
    (frame hit events s).ball.movement.yPos
      = ((Int.tdiv (WINDOW_HEIGHT - s.ball.drawn_object.h) 2 : Int) : ℚ) ∧
    (frame hit events s).ball.movement.xPos
      = (initState lrect rrect s.ball.drawn_object).ball.movement.xPos ∧
    (frame hit events s).ball.movement.yPos
      = (initState lrect rrect s.ball.drawn_object).ball.movement.yPos ∧
    |(frame hit events s).ball.movement.xVel| = |s.ball.movement.xVel| ∧
    |(frame hit events s).ball.movement.yVel| = |s.ball.movement.yVel| := by
  have hc : (ballWalls (afterIntegration events s)).ball.movement.xPos ≤ 0 ∨
      (ballWalls (afterIntegration events s)).ball.movement.xPos
        ≥ ((WINDOW_WIDTH - (ballWalls (afterIntegration events s)).ball.drawn_object.w : Int) : ℚ) := by
    rw [ballWalls_xPos, ballWalls_drawn, afterIntegration_ball_drawn]
    rcases hexit with h | h
    · exact Or.inl (le_of_lt h)
    · exact Or.inr (le_of_lt h)
  have hx : (ballPastPaddle (ballWalls (afterIntegration events s))).ball.movement.xPos
      = ((Int.tdiv (WINDOW_WIDTH - s.ball.drawn_object.w) 2 : Int) : ℚ) := by
    unfold ballPastPaddle
    rw [if_pos hc]
    rfl
  have hy : (ballPastPaddle (ballWalls (afterIntegration events s))).ball.movement.yPos
      = ((Int.tdiv (WINDOW_HEIGHT - s.ball.drawn_object.h) 2 : Int) : ℚ) := by
    unfold ballPastPaddle
    rw [if_pos hc]
    rfl
  have hp := frame_ball_pos hit events s
  refine ⟨hp.1.trans hx, hp.2.trans hy, hp.1.trans hx, hp.2.trans hy, ?_, ?_⟩
  · rw [frame_ball_xVel]; exact ballPaddleCollision_abs hit s
  · rw [frame_ball_yVel, ballWalls_yVel_abs]; rfl

/-- Witness of C5: a ball two units from the left edge moving left leaves the
window and is put back at (310, 230). -/
theorem ball_exit_reset_witness :
    (afterIntegration [] exitLeftState).ball.movement.xPos < 0 ∧
    (frame SDL_HasIntersection [] exitLeftState).ball.movement.xPos
      = ((Int.tdiv (WINDOW_WIDTH - exitLeftState.ball.drawn_object.w) 2 : Int) : ℚ) ∧
    ((Int.tdiv (WINDOW_WIDTH - exitLeftState.ball.drawn_object.w) 2 : Int) : ℚ) = 310 :=
  ⟨by rw [afterIntegration_ball_xPos]; norm_num [exitLeftState],
    (ball_exit_reset SDL_HasIntersection [] exitLeftState ⟨0, 0, 20, 100⟩ ⟨0, 0, 20, 100⟩
      (Or.inl (by rw [afterIntegration_ball_xPos]; norm_num [exitLeftState]))).1,
    by decide⟩

/-- C6, as amended (roof/floor reflection): for a ball whose height `h`
satisfies `0 ≤ h < WINDOW_HEIGHT`, if after the position integration of a
frame the ball's `yPos` is `≤ 0` or `≥ WINDOW_HEIGHT - h`, the ball's `yVel` at
the end of the frame is the negation of its value at the start; if
`0 < yPos < WINDOW_HEIGHT - h` after integration, `yVel` is unchanged. -/
theorem roof_floor_reflection (hit : SDL_Rect → SDL_Rect → Bool) (events : List SDL_Event)
    (s : State) (_h0 : 0 ≤ s.ball.drawn_object.h) (hlt : s.ball.drawn_object.h < WINDOW_HEIGHT) :
    ((afterIntegration events s).ball.movement.yPos ≤ 0 ∨
      (afterIntegration events s).ball.movement.yPos
        ≥ ((WINDOW_HEIGHT - s.ball.drawn_object.h : Int) : ℚ) →
      (frame hit events s).ball.movement.yVel = -s.ball.movement.yVel) ∧
    (0 < (afterIntegration events s).ball.movement.yPos ∧
      (afterIntegration events s).ball.movement.yPos
        < ((WINDOW_HEIGHT - s.ball.drawn_object.h : Int) : ℚ) →
      (frame hit events s).ball.movement.yVel = s.ball.movement.yVel) := by
  have hpos : (0 : ℚ) < ((WINDOW_HEIGHT - s.ball.drawn_object.h : Int) : ℚ) := by
    have : (0 : Int) < WINDOW_HEIGHT - s.ball.drawn_object.h := by omega
    exact_mod_cast this
  rw [frame_ball_yVel]
  unfold ballWalls
  dsimp only
  rw [afterIntegration_ball_drawn, afterIntegration_ball_yVel]
  generalize ((WINDOW_HEIGHT - s.ball.drawn_object.h : Int) : ℚ) = B at hpos ⊢
  generalize (afterIntegration events s).ball.movement.yPos = y
  constructor
  · intro hc
    by_cases h1 : y ≤ 0
    · have h2 : ¬ (0 : ℚ) ≥ B := not_le.mpr hpos
      simp [h1, h2]
    · have h2 : y ≥ B := by
        rcases hc with h | h
        · exact absurd h h1
        · exact h
      simp [h1, h2]
  · intro hc
    have h1 : ¬ y ≤ 0 := not_le.mpr hc.1
    have h2 : ¬ y ≥ B := not_le.mpr hc.2
    simp [h1, h2]

/-- Witness of C6 as amended: a ball of height 20, two units below the roof
and moving up, is four units further up after integration and ends the frame
with its `yVel` negated. -/
theorem roof_floor_reflection_witness :
    0 ≤ contactRoofState.ball.drawn_object.h ∧
    contactRoofState.ball.drawn_object.h < WINDOW_HEIGHT ∧
    (afterIntegration [] contactRoofState).ball.movement.yPos ≤ 0 ∧
    (frame SDL_HasIntersection [] contactRoofState).ball.movement.yVel
      = -contactRoofState.ball.movement.yVel :=
  ⟨by decide, by decide,
    by rw [afterIntegration_ball_yPos]; norm_num [contactRoofState],
    (roof_floor_reflection SDL_HasIntersection [] contactRoofState (by decide) (by decide)).1
      (Or.inl (by rw [afterIntegration_ball_yPos]; norm_num [contactRoofState]))⟩

/-- Counterexample to C6 as stated: with a ball of height 480, allowed by
`0 ≤ h ≤ 480`, the first frame of the game integrates `yPos` from 0 to -4; the
roof test negates `yVel` and sets `yPos = 0`, the floor test then finds
`yPos ≥ 480 - 480` and negates `yVel` again: the frame ends with `yVel` equal
to its value at the start, not to its negation. -/
theorem roof_floor_reflection_counterexample :
    0 ≤ tallBallState.ball.drawn_object.h ∧
    tallBallState.ball.drawn_object.h ≤ WINDOW_HEIGHT ∧
    (afterIntegration [] tallBallState).ball.movement.yPos ≤ 0 ∧
    (frame SDL_HasIntersection [] tallBallState).ball.movement.yVel
      ≠ -tallBallState.ball.movement.yVel := by
  refine ⟨by decide, by decide, ?_, ?_⟩
  · rw [afterIntegration_ball_yPos]
    norm_num [tallBallState, initState, WINDOW_HEIGHT, SPEED, tdiv_two_eq]
  · rw [frame_ball_yVel]
    norm_num [ballWalls, afterIntegration, updatePositions, afterVelocity, determineVelocity,
      afterEvents, tallBallState, initState, WINDOW_HEIGHT, SPEED, tdiv_two_eq]

/-- C7 (paddle velocity is a function of the paddle's two key flags): after
the velocity-derivation block, whatever the state before it, a paddle's `yVel`
is -240 if its up flag is `PRESSED` and its down flag `NOT_PRESSED`, 240 if
its down flag is `PRESSED` and its up flag `NOT_PRESSED`, and 0 otherwise; in
particular it is 0 when both flags are `PRESSED`.  The right-hand sides do not
mention the paddle's earlier `yVel`. -/
theorem paddle_velocity_from_flags (s : State) :
    (determineVelocity s).leftpaddle.movement.yVel
      = (if s.actions.left_up = PRESSED ∧ s.actions.left_down = NOT_PRESSED then -240
         else if s.actions.left_down = PRESSED ∧ s.actions.left_up = NOT_PRESSED then 240
         else 0) ∧
    (determineVelocity s).rightpaddle.movement.yVel
      = (if s.actions.right_up = PRESSED ∧ s.actions.right_down = NOT_PRESSED then -240
         else if s.actions.right_down = PRESSED ∧ s.actions.right_up = NOT_PRESSED then 240
         else 0) ∧
    (s.actions.left_up = PRESSED → s.actions.left_down = PRESSED →
      (determineVelocity s).leftpaddle.movement.yVel = 0) ∧
    (s.actions.right_up = PRESSED → s.actions.right_down = PRESSED →
      (determineVelocity s).rightpaddle.movement.yVel = 0) := by
  refine ⟨?_, ?_, ?_, ?_⟩
  · simp only [determineVelocity, keystrokeVel, SPEED, PRESSED, NOT_PRESSED]
    split_ifs with h1 h2 h2
    · exact absurd h2.1 (by rw [h1.2]; decide)
    · norm_num
    · rfl
    · rfl
  · simp only [determineVelocity, keystrokeVel, SPEED, PRESSED, NOT_PRESSED]
    split_ifs with h1 h2 h2
    · exact absurd h2.1 (by rw [h1.2]; decide)
    · norm_num
    · rfl
    · rfl
  · intro hu hd
    simp [determineVelocity, keystrokeVel, hu, hd, PRESSED, NOT_PRESSED]
  · intro hu hd
    simp [determineVelocity, keystrokeVel, hu, hd, PRESSED, NOT_PRESSED]

/-- Witness of C7: W and S both held, the left paddle carrying -240 from an
earlier frame; the derived velocity is 0. -/
theorem paddle_velocity_from_flags_witness :
    bothPressedState.actions.left_up = PRESSED ∧
    bothPressedState.actions.left_down = PRESSED ∧
    bothPressedState.leftpaddle.movement.yVel = -240 ∧
    (determineVelocity bothPressedState).leftpaddle.movement.yVel = 0 :=
  ⟨by decide, by decide, rfl,
    (paddle_velocity_from_flags bothPressedState).2.2.1 (by decide) (by decide)⟩

/-- C8 (explicit Euler step): in a frame in which the ball makes no boundary
contact (after integration `0 < xPos < WINDOW_WIDTH - w` and
`0 < yPos < WINDOW_HEIGHT - h`), the ball's position at the end of the frame
is `(xPos + xVel / 60, yPos + yVel / 60)` in the values of the start of the
frame; with the starting velocity (240, -240) that is the start position plus
(4, -4).  The intersection test `hit` is arbitrary and the state may have the
ball overlapping a paddle. -/
theorem explicit_euler_step (hit : SDL_Rect → SDL_Rect → Bool) (events : List SDL_Event)
    (s : State)
    (hx0 : 0 < (afterIntegration events s).ball.movement.xPos)
    (hx1 : (afterIntegration events s).ball.movement.xPos
      < ((WINDOW_WIDTH - s.ball.drawn_object.w : Int) : ℚ))
    (hy0 : 0 < (afterIntegration events s).ball.movement.yPos)
    (hy1 : (afterIntegration events s).ball.movement.yPos
      < ((WINDOW_HEIGHT - s.ball.drawn_object.h : Int) : ℚ)) :
    (frame hit events s).ball.movement.xPos
      = s.ball.movement.xPos + s.ball.movement.xVel / 60 ∧
    (frame hit events s).ball.movement.yPos
      = s.ball.movement.yPos + s.ball.movement.yVel / 60 ∧
    (s.ball.movement.xVel = 240 → s.ball.movement.yVel = -240 →
      (frame hit events s).ball.movement.xPos = s.ball.movement.xPos + 4 ∧
      (frame hit events s).ball.movement.yPos = s.ball.movement.yPos - 4) := by
  have hc : ¬ ((ballWalls (afterIntegration events s)).ball.movement.xPos ≤ 0 ∨
      (ballWalls (afterIntegration events s)).ball.movement.xPos
        ≥ ((WINDOW_WIDTH - (ballWalls (afterIntegration events s)).ball.drawn_object.w : Int) : ℚ)) := by
    rw [ballWalls_xPos, ballWalls_drawn, afterIntegration_ball_drawn]
    intro h
    rcases h with h | h
    · exact absurd hx0 (not_lt.mpr h)
    · exact absurd hx1 (not_lt.mpr h)
  have hp := frame_ball_pos hit events s
  have hx : (frame hit events s).ball.movement.xPos
      = s.ball.movement.xPos + s.ball.movement.xVel / 60 := by
    rw [hp.1]
    unfold ballPastPaddle
    rw [if_neg hc]
    rfl
  have hy : (frame hit events s).ball.movement.yPos
      = s.ball.movement.yPos + s.ball.movement.yVel / 60 := by
    rw [hp.2]
    unfold ballPastPaddle
    rw [if_neg hc]
    exact ballWalls_yPos_inside (afterIntegration events s) hy0 hy1
  refine ⟨hx, hy, ?_⟩
  intro hvx hvy
  rw [hx, hy, hvx, hvy]
  constructor <;> ring

/-- Witness of C8: the ball at (95, 200) with velocity (240, -240), its
rectangle overlapping the left paddle's, ends the frame at (99, 196). -/
theorem explicit_euler_step_witness :
    0 < (afterIntegration [] leavingLeftState).ball.movement.xPos ∧
    (afterIntegration [] leavingLeftState).ball.movement.xPos
      < ((WINDOW_WIDTH - leavingLeftState.ball.drawn_object.w : Int) : ℚ) ∧
    0 < (afterIntegration [] leavingLeftState).ball.movement.yPos ∧
    (afterIntegration [] leavingLeftState).ball.movement.yPos
      < ((WINDOW_HEIGHT - leavingLeftState.ball.drawn_object.h : Int) : ℚ) ∧
    SDL_HasIntersection leavingLeftState.ball.drawn_object
      leavingLeftState.leftpaddle.drawn_object = true ∧
    (frame SDL_HasIntersection [] leavingLeftState).ball.movement.xPos
      = leavingLeftState.ball.movement.xPos + 4 ∧
    (frame SDL_HasIntersection [] leavingLeftState).ball.movement.yPos
      = leavingLeftState.ball.movement.yPos - 4 :=
  ⟨by rw [afterIntegration_ball_xPos]; norm_num [leavingLeftState],
    by rw [afterIntegration_ball_xPos]; norm_num [leavingLeftState, WINDOW_WIDTH],
    by rw [afterIntegration_ball_yPos]; norm_num [leavingLeftState],
    by rw [afterIntegration_ball_yPos]; norm_num [leavingLeftState, WINDOW_HEIGHT],
    by decide,
    (explicit_euler_step SDL_HasIntersection [] leavingLeftState
      (by rw [afterIntegration_ball_xPos]; norm_num [leavingLeftState])
      (by rw [afterIntegration_ball_xPos]; norm_num [leavingLeftState, WINDOW_WIDTH])
      (by rw [afterIntegration_ball_yPos]; norm_num [leavingLeftState])
      (by rw [afterIntegration_ball_yPos]; norm_num [leavingLeftState, WINDOW_HEIGHT])).2.2
      (by norm_num [leavingLeftState]) (by norm_num [leavingLeftState])⟩

/-- C9 (ball speed is invariant): in the state the loop reaches from the
initial state after any sequence of frames, for any rectangles, any events and
any intersection test, the ball's `xVel` is 240 or -240 and its `yVel` is 240
or -240; and one frame, from any state, leaves each velocity component of the
ball either unchanged or negated. -/
theorem ball_speed_invariant (hit : SDL_Rect → SDL_Rect → Bool)
    (lrect rrect brect : SDL_Rect) (queue : List (List SDL_Event)) :
    ((run hit queue (initState lrect rrect brect)).ball.movement.xVel = 240 ∨
      (run hit queue (initState lrect rrect brect)).ball.movement.xVel = -240) ∧
    ((run hit queue (initState lrect rrect brect)).ball.movement.yVel = 240 ∨
      (run hit queue (initState lrect rrect brect)).ball.movement.yVel = -240) ∧
    (∀ (events : List SDL_Event) (s : State),
      ((frame hit events s).ball.movement.xVel = s.ball.movement.xVel ∨
        (frame hit events s).ball.movement.xVel = -s.ball.movement.xVel) ∧
      ((frame hit events s).ball.movement.yVel = s.ball.movement.yVel ∨
        (frame hit events s).ball.movement.yVel = -s.ball.movement.yVel)) := by
  have inv := run_invariant hit
    (fun s => (s.ball.movement.xVel = 240 ∨ s.ball.movement.xVel = -240) ∧
      (s.ball.movement.yVel = 240 ∨ s.ball.movement.yVel = -240))
    (by
      intro ev s hs
      have hc := frame_ball_vel_cases hit ev s
      constructor
      · rcases hc.1 with h | h <;> rcases hs.1 with k | k <;> rw [h, k] <;> norm_num
      · rcases hc.2 with h | h <;> rcases hs.2 with k | k <;> rw [h, k] <;> norm_num)
    queue (initState lrect rrect brect)
    (by
      constructor
      · left; show ((SPEED : Int) : ℚ) = 240; norm_num [SPEED]
      · right; show -((SPEED : Int) : ℚ) = -240; norm_num [SPEED])
  exact ⟨inv.1, inv.2, fun events s => frame_ball_vel_cases hit events s⟩

/-- C10 (input-event handling): a key-down event for W, S, Up or Down sets
`left_up`, `left_down`, `right_up` or `right_down` to `PRESSED`, a key-up
event for the same key sets that flag to `NOT_PRESSED`, and in both cases the
other four flags keep their values; a key-down or key-up event for any other
key, and an event of any type other than quit, key-down and key-up, leaves all
five flags as they are; a quit event sets `close_request` to `PRESSED` and
leaves the four direction flags as they are. -/
theorem input_event_handling (a : keys_t) :
    processEvent a ⟨SDL_KEYDOWN, SDL_SCANCODE_W⟩ = { a with left_up := PRESSED } ∧
    processEvent a ⟨SDL_KEYDOWN, SDL_SCANCODE_S⟩ = { a with left_down := PRESSED } ∧
    processEvent a ⟨SDL_KEYDOWN, SDL_SCANCODE_UP⟩ = { a with right_up := PRESSED } ∧
    processEvent a ⟨SDL_KEYDOWN, SDL_SCANCODE_DOWN⟩ = { a with right_down := PRESSED } ∧
    processEvent a ⟨SDL_KEYUP, SDL_SCANCODE_W⟩ = { a with left_up := NOT_PRESSED } ∧
    processEvent a ⟨SDL_KEYUP, SDL_SCANCODE_S⟩ = { a with left_down := NOT_PRESSED } ∧
    processEvent a ⟨SDL_KEYUP, SDL_SCANCODE_UP⟩ = { a with right_up := NOT_PRESSED } ∧
    processEvent a ⟨SDL_KEYUP, SDL_SCANCODE_DOWN⟩ = { a with right_down := NOT_PRESSED } ∧
    (∀ sc : Nat, sc ≠ SDL_SCANCODE_W → sc ≠ SDL_SCANCODE_S → sc ≠ SDL_SCANCODE_UP →
      sc ≠ SDL_SCANCODE_DOWN →
      processEvent a ⟨SDL_KEYDOWN, sc⟩ = a ∧ processEvent a ⟨SDL_KEYUP, sc⟩ = a) ∧
    (∀ ty sc : Nat, ty ≠ SDL_QUIT → ty ≠ SDL_KEYDOWN → ty ≠ SDL_KEYUP →
      processEvent a ⟨ty, sc⟩ = a) ∧
    (∀ sc : Nat, processEvent a ⟨SDL_QUIT, sc⟩ = { a with close_request := PRESSED }) := by
  refine ⟨rfl, rfl, rfl, rfl, rfl, rfl, rfl, rfl, ?_, ?_, ?_⟩
  · intro sc h1 h2 h3 h4
    constructor
    · simp [processEvent, h1, h2, h3, h4, SDL_KEYDOWN, SDL_QUIT]
    · simp [processEvent, h1, h2, h3, h4, SDL_KEYDOWN, SDL_KEYUP, SDL_QUIT]
  · intro ty sc h1 h2 h3
    simp [processEvent, h1, h2, h3]
  · intro sc
    simp [processEvent]

/-- Witness of C10: a key-down event for the A key (scancode 4) and a mouse
motion event (type 0x400) leave the flags as they are. -/
theorem input_event_handling_witness :
    (4 : Nat) ≠ SDL_SCANCODE_W ∧ (4 : Nat) ≠ SDL_SCANCODE_S ∧ (4 : Nat) ≠ SDL_SCANCODE_UP ∧
    (4 : Nat) ≠ SDL_SCANCODE_DOWN ∧
    processEvent ⟨0, 1, 0, 1, 0⟩ ⟨SDL_KEYDOWN, 4⟩ = ⟨0, 1, 0, 1, 0⟩ ∧
    (1024 : Nat) ≠ SDL_QUIT ∧ (1024 : Nat) ≠ SDL_KEYDOWN ∧ (1024 : Nat) ≠ SDL_KEYUP ∧
    processEvent ⟨0, 1, 0, 1, 0⟩ ⟨1024, 26⟩ = ⟨0, 1, 0, 1, 0⟩ :=
  ⟨by decide, by decide, by decide, by decide,
    ((input_event_handling ⟨0, 1, 0, 1, 0⟩).2.2.2.2.2.2.2.2.1 4
      (by decide) (by decide) (by decide) (by decide)).1,
    by decide, by decide, by decide,
    (input_event_handling ⟨0, 1, 0, 1, 0⟩).2.2.2.2.2.2.2.2.2.1 1024 26
      (by decide) (by decide) (by decide)⟩

/-- C11 (the two paddles are independent): two frames, from any two states
that agree on the left paddle's `yPos`, on its height and on the `left_up` and
`left_down` flags, end with equal `yPos` and equal `yVel` of the left paddle,
whatever the right paddle, the right paddle's flags, the ball and the
intersection test are in either; symmetrically for the right paddle.  Stated
twice: for the flags agreeing at the start of the frame, both frames draining
the same events, and for the flags agreeing after the drain, the two frames
draining any events. -/
theorem paddles_independent (hit1 hit2 : SDL_Rect → SDL_Rect → Bool)
    (events events1 events2 : List SDL_Event) (s1 s2 : State) :
    (s1.leftpaddle.movement.yPos = s2.leftpaddle.movement.yPos →
      s1.leftpaddle.drawn_object.h = s2.leftpaddle.drawn_object.h →
      s1.actions.left_up = s2.actions.left_up →
      s1.actions.left_down = s2.actions.left_down →
      (frame hit1 events s1).leftpaddle.movement.yPos
        = (frame hit2 events s2).leftpaddle.movement.yPos ∧
      (frame hit1 events s1).leftpaddle.movement.yVel
        = (frame hit2 events s2).leftpaddle.movement.yVel) ∧
    (s1.rightpaddle.movement.yPos = s2.rightpaddle.movement.yPos →
      s1.rightpaddle.drawn_object.h = s2.rightpaddle.drawn_object.h →
      s1.actions.right_up = s2.actions.right_up →
      s1.actions.right_down = s2.actions.right_down →
      (frame hit1 events s1).rightpaddle.movement.yPos
        = (frame hit2 events s2).rightpaddle.movement.yPos ∧
      (frame hit1 events s1).rightpaddle.movement.yVel
        = (frame hit2 events s2).rightpaddle.movement.yVel) ∧
    (s1.leftpaddle.movement.yPos = s2.leftpaddle.movement.yPos →
      s1.leftpaddle.drawn_object.h = s2.leftpaddle.drawn_object.h →
      (afterEvents events1 s1).actions.left_up = (afterEvents events2 s2).actions.left_up →
      (afterEvents events1 s1).actions.left_down = (afterEvents events2 s2).actions.left_down →
      (frame hit1 events1 s1).leftpaddle.movement.yPos
        = (frame hit2 events2 s2).leftpaddle.movement.yPos ∧
      (frame hit1 events1 s1).leftpaddle.movement.yVel
        = (frame hit2 events2 s2).leftpaddle.movement.yVel) ∧
    (s1.rightpaddle.movement.yPos = s2.rightpaddle.movement.yPos →
      s1.rightpaddle.drawn_object.h = s2.rightpaddle.drawn_object.h →
      (afterEvents events1 s1).actions.right_up = (afterEvents events2 s2).actions.right_up →
      (afterEvents events1 s1).actions.right_down = (afterEvents events2 s2).actions.right_down →
      (frame hit1 events1 s1).rightpaddle.movement.yPos
        = (frame hit2 events2 s2).rightpaddle.movement.yPos ∧
      (frame hit1 events1 s1).rightpaddle.movement.yVel
        = (frame hit2 events2 s2).rightpaddle.movement.yVel) := by
  refine ⟨?_, ?_, ?_, ?_⟩
  · intro hy hh hu hd
    have hf := pollEvents_left_congr events s1.actions s2.actions hu hd
    rw [frame_left_yPos, frame_left_yPos, frame_left_yVel, frame_left_yVel, hy, hh, hf.1, hf.2]
    exact ⟨rfl, rfl⟩
  · intro hy hh hu hd
    have hf := pollEvents_right_congr events s1.actions s2.actions hu hd
    rw [frame_right_yPos, frame_right_yPos, frame_right_yVel, frame_right_yVel, hy, hh,
      hf.1, hf.2]
    exact ⟨rfl, rfl⟩
  · intro hy hh hu hd
    have hu1 : (pollEvents s1.actions events1).left_up = (pollEvents s2.actions events2).left_up := hu
    have hd1 : (pollEvents s1.actions events1).left_down
        = (pollEvents s2.actions events2).left_down := hd
    rw [frame_left_yPos, frame_left_yPos, frame_left_yVel, frame_left_yVel, hy, hh, hu1, hd1]
    exact ⟨rfl, rfl⟩
  · intro hy hh hu hd
    have hu1 : (pollEvents s1.actions events1).right_up
        = (pollEvents s2.actions events2).right_up := hu
    have hd1 : (pollEvents s1.actions events1).right_down
        = (pollEvents s2.actions events2).right_down := hd
    rw [frame_right_yPos, frame_right_yPos, frame_right_yVel, frame_right_yVel, hy, hh,
      hu1, hd1]
    exact ⟨rfl, rfl⟩

/-- Witness of C11: `contactLeftState` and `rightBusyState` agree on the left
paddle and differ in the right paddle, its flags and the ball;
`contactLeftState` and `bothPressedState` agree on the right paddle and differ
in the left paddle and its flags.  In both frames W is pressed. -/
theorem paddles_independent_witness :
    (contactLeftState.rightpaddle ≠ rightBusyState.rightpaddle ∧
      contactLeftState.actions.right_down ≠ rightBusyState.actions.right_down ∧
      (frame SDL_HasIntersection [⟨SDL_KEYDOWN, SDL_SCANCODE_W⟩]
          contactLeftState).leftpaddle.movement.yPos
        = (frame SDL_HasIntersection [⟨SDL_KEYDOWN, SDL_SCANCODE_W⟩]
          rightBusyState).leftpaddle.movement.yPos ∧
      (frame SDL_HasIntersection [⟨SDL_KEYDOWN, SDL_SCANCODE_W⟩]
          contactLeftState).leftpaddle.movement.yVel
        = (frame SDL_HasIntersection [⟨SDL_KEYDOWN, SDL_SCANCODE_W⟩]
          rightBusyState).leftpaddle.movement.yVel) ∧
    (contactLeftState.actions.left_up ≠ bothPressedState.actions.left_up ∧
      (frame SDL_HasIntersection [⟨SDL_KEYDOWN, SDL_SCANCODE_W⟩]
          contactLeftState).rightpaddle.movement.yPos
        = (frame SDL_HasIntersection [⟨SDL_KEYDOWN, SDL_SCANCODE_W⟩]
          bothPressedState).rightpaddle.movement.yPos ∧
      (frame SDL_HasIntersection [⟨SDL_KEYDOWN, SDL_SCANCODE_W⟩]
          contactLeftState).rightpaddle.movement.yVel
        = (frame SDL_HasIntersection [⟨SDL_KEYDOWN, SDL_SCANCODE_W⟩]
          bothPressedState).rightpaddle.movement.yVel) :=
  ⟨⟨by decide, by decide,
      (paddles_independent SDL_HasIntersection SDL_HasIntersection
        [⟨SDL_KEYDOWN, SDL_SCANCODE_W⟩] [] [] contactLeftState rightBusyState).1
        rfl rfl rfl rfl⟩,
    ⟨by decide,
      (paddles_independent SDL_HasIntersection SDL_HasIntersection
        [⟨SDL_KEYDOWN, SDL_SCANCODE_W⟩] [] [] contactLeftState bothPressedState).2.1
        rfl rfl rfl rfl⟩⟩

/-- C12 (the close flag latches and stops the loop): an event of any kind
leaves `close_request` at `PRESSED` once it is `PRESSED`, and so does the rest
of a drain; a drain that holds a quit event ends with `close_request` at
`PRESSED` whatever comes before and after it; the loop runs the next frame
when `close_request` is `NOT_PRESSED` at the loop test and runs nothing more
when it is not; hence from a state that passes the loop test, the frame whose
drain holds a quit event is the last one, whatever the queue still holds. -/
theorem close_request_latches (hit : SDL_Rect → SDL_Rect → Bool) :
    (∀ (a : keys_t) (e : SDL_Event), a.close_request = PRESSED →
      (processEvent a e).close_request = PRESSED) ∧
    (∀ (a : keys_t) (events : List SDL_Event), a.close_request = PRESSED →
      (pollEvents a events).close_request = PRESSED) ∧
    (∀ (a : keys_t) (before after : List SDL_Event) (sc : Nat),
      (pollEvents a (before ++ ⟨SDL_QUIT, sc⟩ :: after)).close_request = PRESSED) ∧
    (∀ (events : List SDL_Event) (queue : List (List SDL_Event)) (s : State),
      s.actions.close_request = NOT_PRESSED →
      run hit (events :: queue) s = run hit queue (frame hit events s)) ∧
    (∀ (queue : List (List SDL_Event)) (s : State),
      s.actions.close_request ≠ NOT_PRESSED → run hit queue s = s) ∧
    (∀ (before after : List SDL_Event) (sc : Nat) (queue : List (List SDL_Event)) (s : State),
      s.actions.close_request = NOT_PRESSED →
      run hit ((before ++ ⟨SDL_QUIT, sc⟩ :: after) :: queue) s
        = frame hit (before ++ ⟨SDL_QUIT, sc⟩ :: after) s) := by
  refine ⟨processEvent_close_latched, fun a ev h => pollEvents_close_latched ev a h,
    pollEvents_quit, ?_, run_closed hit, ?_⟩
  · intro events queue s h
    rw [run, if_pos h]
  · intro before after sc queue s h
    rw [run, if_pos h]
    apply run_closed
    rw [frame_actions, pollEvents_quit]
    decide

/-- Witness of C12: a key-up event after the flag is set leaves it set; a
frame whose drain holds a quit event followed by a key-down event is the last
frame, two more drains being at hand. -/
theorem close_request_latches_witness :
    (processEvent ⟨1, 0, 0, 0, 1⟩ ⟨SDL_KEYUP, SDL_SCANCODE_W⟩).close_request = PRESSED ∧
    contactLeftState.actions.close_request = NOT_PRESSED ∧
    run SDL_HasIntersection
        ([⟨SDL_QUIT, 0⟩, ⟨SDL_KEYDOWN, SDL_SCANCODE_W⟩] :: [[], []]) contactLeftState
      = frame SDL_HasIntersection [⟨SDL_QUIT, 0⟩, ⟨SDL_KEYDOWN, SDL_SCANCODE_W⟩]
          contactLeftState :=
  ⟨(close_request_latches SDL_HasIntersection).1 ⟨1, 0, 0, 0, 1⟩
      ⟨SDL_KEYUP, SDL_SCANCODE_W⟩ (by decide),
    by decide,
    (close_request_latches SDL_HasIntersection).2.2.2.2.2 []
      [⟨SDL_KEYDOWN, SDL_SCANCODE_W⟩] 0 [[], []] contactLeftState (by decide)⟩

/-- C14 (the ball stays strictly inside the horizontal bounds): for a ball of
width `w` with `0 ≤ w ≤ 638`, in the initial state and in the state the loop
reaches from it after any sequence of frames, `0 < xPos < WINDOW_WIDTH - w`;
and a frame in which the integration puts the ball at `x = 0` or at
`x = WINDOW_WIDTH - w` exactly recentres it. -/
theorem ball_strictly_inside (hit : SDL_Rect → SDL_Rect → Bool)
    (lrect rrect brect : SDL_Rect) (queue : List (List SDL_Event))
    (_h0 : 0 ≤ brect.w) (hle : brect.w ≤ 638) :
    (0 < (run hit queue (initState lrect rrect brect)).ball.movement.xPos ∧
      (run hit queue (initState lrect rrect brect)).ball.movement.xPos
        < ((WINDOW_WIDTH - brect.w : Int) : ℚ)) ∧
    (∀ (events : List SDL_Event) (s : State), s.ball.drawn_object.w = brect.w →
      ((afterIntegration events s).ball.movement.xPos = 0 ∨
        (afterIntegration events s).ball.movement.xPos
          = ((WINDOW_WIDTH - brect.w : Int) : ℚ)) →
      (frame hit events s).ball.movement.xPos
        = ((Int.tdiv (WINDOW_WIDTH - brect.w) 2 : Int) : ℚ)) := by
  constructor
  · have inv := run_invariant hit
      (fun s => s.ball.drawn_object.w = brect.w ∧
        0 < s.ball.movement.xPos ∧
        s.ball.movement.xPos < ((WINDOW_WIDTH - brect.w : Int) : ℚ))
      (by
        intro ev s hs
        have hb := frame_ball_xPos_inside hit ev s (by rw [hs.1]; exact hle)
        rw [hs.1] at hb
        exact ⟨by rw [frame_ball_w, hs.1], hb.1, hb.2⟩)
      queue (initState lrect rrect brect)
      (by
        have hb := tdiv_two_strict (WINDOW_WIDTH - brect.w) (by simp only [WINDOW_WIDTH]; omega)
        refine ⟨rfl, ?_, ?_⟩
        · show (0 : ℚ) < ((Int.tdiv (WINDOW_WIDTH - brect.w) 2 : Int) : ℚ)
          exact_mod_cast hb.1
        · show ((Int.tdiv (WINDOW_WIDTH - brect.w) 2 : Int) : ℚ) < _
          exact_mod_cast hb.2)
    exact inv.2
  · intro events s hw hc
    rw [← hw]
    rw [← hw] at hc
    refine (frame_ball_recentred hit events s ?_).1
    rcases hc with h | h
    · exact Or.inl (le_of_eq h)
    · exact Or.inr (ge_of_eq h)

/-- Witness of C14: the widest ball allowed, 638, after one frame; and a ball
of width 20 that the integration puts at `x = 0` exactly. -/
theorem ball_strictly_inside_witness :
    (0 : Int) ≤ 638 ∧
    0 < (run SDL_HasIntersection [[]]
          (initState ⟨0, 0, 20, 100⟩ ⟨0, 0, 20, 100⟩ ⟨0, 0, 638, 10⟩)).ball.movement.xPos ∧
    (afterIntegration [] touchLeftEdgeState).ball.movement.xPos = 0 ∧
    (frame SDL_HasIntersection [] touchLeftEdgeState).ball.movement.xPos
      = ((Int.tdiv (WINDOW_WIDTH - 20) 2 : Int) : ℚ) :=
  ⟨by decide,
    ((ball_strictly_inside SDL_HasIntersection ⟨0, 0, 20, 100⟩ ⟨0, 0, 20, 100⟩
      ⟨0, 0, 638, 10⟩ [[]] (by decide) (by decide)).1).1,
    by rw [afterIntegration_ball_xPos]; norm_num [touchLeftEdgeState],
    (ball_strictly_inside SDL_HasIntersection ⟨0, 0, 20, 100⟩ ⟨0, 0, 20, 100⟩
      ⟨0, 0, 20, 10⟩ [] (by decide) (by decide)).2 [] touchLeftEdgeState rfl
      (Or.inl (by rw [afterIntegration_ball_xPos]; norm_num [touchLeftEdgeState]))⟩

/-- C15 (simulation positions are whole numbers, so the draw positions lose
nothing): in the state the loop reaches from the initial state after any
sequence of frames, `xPos` and `yPos` of both paddles and of the ball are
whole numbers; and at the end of a further frame they are whole again and the
`x` and `y` of each draw rectangle, obtained by the cast to `int`, equal the
`xPos` and `yPos` they were cast from. -/
theorem positions_whole_draw_exact (hit : SDL_Rect → SDL_Rect → Bool)
    (lrect rrect brect : SDL_Rect) (queue : List (List SDL_Event)) :
    wholePositions (run hit queue (initState lrect rrect brect)) ∧
    (∀ events : List SDL_Event,
      wholePositions (frame hit events (run hit queue (initState lrect rrect brect))) ∧
      drawnExact (frame hit events (run hit queue (initState lrect rrect brect)))) := by
  have inv := run_invariant hit
    (fun s => wholePositions s ∧
      (s.ball.movement.xVel = 240 ∨ s.ball.movement.xVel = -240) ∧
      (s.ball.movement.yVel = 240 ∨ s.ball.movement.yVel = -240))
    (by
      intro ev s hs
      have hc := frame_ball_vel_cases hit ev s
      refine ⟨frame_whole hit ev s hs.1 hs.2.1 hs.2.2, ?_, ?_⟩
      · rcases hc.1 with h | h <;> rcases hs.2.1 with k | k <;> rw [h, k] <;> norm_num
      · rcases hc.2 with h | h <;> rcases hs.2.2 with k | k <;> rw [h, k] <;> norm_num)
    queue (initState lrect rrect brect)
    (by
      refine ⟨initState_whole lrect rrect brect, ?_, ?_⟩
      · left; show ((SPEED : Int) : ℚ) = 240; norm_num [SPEED]
      · right; show -((SPEED : Int) : ℚ) = -240; norm_num [SPEED])
  refine ⟨inv.1, fun events => ?_⟩
  have hw := frame_whole hit events _ inv.1 inv.2.1 inv.2.2
  have hd := frame_drawn hit events (run hit queue (initState lrect rrect brect))
  obtain ⟨w1, w2, w3, w4, w5, w6⟩ := hw
  obtain ⟨d1, d2, d3, d4, d5, d6⟩ := hd
  refine ⟨⟨w1, w2, w3, w4, w5, w6⟩, ?_, ?_, ?_, ?_, ?_, ?_⟩
  · rw [d1]; exact toInt_of_isWhole _ w1
  · rw [d2]; exact toInt_of_isWhole _ w2
  · rw [d3]; exact toInt_of_isWhole _ w3
  · rw [d4]; exact toInt_of_isWhole _ w4
  · rw [d5]; exact toInt_of_isWhole _ w5
  · rw [d6]; exact toInt_of_isWhole _ w6

/-- C16 (frame of a game step): one frame, from any state and with any events
drained, leaves unchanged `xPos` and `xVel` of both paddles and the width and
height of the three rectangles; the key flags are written by the event drain
alone and keep their values when no event is drained.  In the state the loop
reaches from the initial state after any sequence of frames the left paddle's
`xPos` is 100, the right paddle's is `WINDOW_WIDTH - 100 - w` for its width
`w`, both `xVel` are 0 and the rectangles have the sizes they started with.
What a frame may change is what remains: `yPos` and `yVel` of the paddles,
position and velocity of the ball, and the `x` and `y` of the rectangles. -/
theorem frame_effect (hit : SDL_Rect → SDL_Rect → Bool) (events : List SDL_Event) (s : State)
    (lrect rrect brect : SDL_Rect) (queue : List (List SDL_Event)) :
    ((frame hit events s).leftpaddle.movement.xPos = s.leftpaddle.movement.xPos ∧
      (frame hit events s).leftpaddle.movement.xVel = s.leftpaddle.movement.xVel ∧
      (frame hit events s).rightpaddle.movement.xPos = s.rightpaddle.movement.xPos ∧
      (frame hit events s).rightpaddle.movement.xVel = s.rightpaddle.movement.xVel ∧
      (frame hit events s).leftpaddle.drawn_object.w = s.leftpaddle.drawn_object.w ∧
      (frame hit events s).leftpaddle.drawn_object.h = s.leftpaddle.drawn_object.h ∧
      (frame hit events s).rightpaddle.drawn_object.w = s.rightpaddle.drawn_object.w ∧
      (frame hit events s).rightpaddle.drawn_object.h = s.rightpaddle.drawn_object.h ∧
      (frame hit events s).ball.drawn_object.w = s.ball.drawn_object.w ∧
      (frame hit events s).ball.drawn_object.h = s.ball.drawn_object.h ∧
      (frame hit events s).actions = pollEvents s.actions events ∧
      (frame hit [] s).actions = s.actions) ∧
    ((run hit queue (initState lrect rrect brect)).leftpaddle.movement.xPos = 100 ∧
      (run hit queue (initState lrect rrect brect)).leftpaddle.movement.xVel = 0 ∧
      (run hit queue (initState lrect rrect brect)).rightpaddle.movement.xPos
        = ((WINDOW_WIDTH - 100 - rrect.w : Int) : ℚ) ∧
      (run hit queue (initState lrect rrect brect)).rightpaddle.movement.xVel = 0 ∧
      (run hit queue (initState lrect rrect brect)).leftpaddle.drawn_object.w = lrect.w ∧
      (run hit queue (initState lrect rrect brect)).leftpaddle.drawn_object.h = lrect.h ∧
      (run hit queue (initState lrect rrect brect)).rightpaddle.drawn_object.w = rrect.w ∧
      (run hit queue (initState lrect rrect brect)).rightpaddle.drawn_object.h = rrect.h ∧
      (run hit queue (initState lrect rrect brect)).ball.drawn_object.w = brect.w ∧
      (run hit queue (initState lrect rrect brect)).ball.drawn_object.h = brect.h) := by
  constructor
  · exact ⟨(frame_left_xPos hit events s).1, (frame_left_xPos hit events s).2,
      (frame_right_xPos hit events s).1, (frame_right_xPos hit events s).2,
      frame_left_w hit events s, frame_left_h hit events s,
      frame_right_w hit events s, frame_right_h hit events s,
      frame_ball_w hit events s, frame_ball_h hit events s, frame_actions hit events s,
      frame_actions hit [] s⟩
  · exact run_invariant hit
      (fun t => t.leftpaddle.movement.xPos = 100 ∧
        t.leftpaddle.movement.xVel = 0 ∧
        t.rightpaddle.movement.xPos = ((WINDOW_WIDTH - 100 - rrect.w : Int) : ℚ) ∧
        t.rightpaddle.movement.xVel = 0 ∧
        t.leftpaddle.drawn_object.w = lrect.w ∧
        t.leftpaddle.drawn_object.h = lrect.h ∧
        t.rightpaddle.drawn_object.w = rrect.w ∧
        t.rightpaddle.drawn_object.h = rrect.h ∧
        t.ball.drawn_object.w = brect.w ∧
        t.ball.drawn_object.h = brect.h)
      (by
        intro ev t ht
        obtain ⟨a1, a2, a3, a4, a5, a6, a7, a8, a9, a10⟩ := ht
        exact ⟨(frame_left_xPos hit ev t).1.trans a1, (frame_left_xPos hit ev t).2.trans a2,
          (frame_right_xPos hit ev t).1.trans a3, (frame_right_xPos hit ev t).2.trans a4,
          (frame_left_w hit ev t).trans a5, (frame_left_h hit ev t).trans a6,
          (frame_right_w hit ev t).trans a7, (frame_right_h hit ev t).trans a8,
          (frame_ball_w hit ev t).trans a9, (frame_ball_h hit ev t).trans a10⟩)
      queue (initState lrect rrect brect)
      ⟨rfl, rfl, rfl, rfl, rfl, rfl, rfl, rfl, rfl, rfl⟩

end Pong
